import Mathlib

/-!
# sigwasm: verification gateway and key pinning

A shallow embedding of `src/sigwasm/main/main.go`.

* Go byte slices are lists of bytes; `bytes.Equal` is list equality.
* Go strings coming from JSON or from the JavaScript host are valid UTF-8 and
  are represented by Lean strings (sequences of Unicode scalar values).
* A Go `error` is represented by its message, and a `(value, error)` return by
  `Except String value`.
* A Go panic raised by the `syscall/js` accessors (`Length`, `CopyBytesToGo`,
  `String`) is the result `none`.
* Everything imported from outside the repository whose behaviour the program
  does not fix (PEM, X.509, JSON, base64, SHA-256, the sigstore engine) is a
  field of `Env`; the small string helpers whose exact behaviour matters
  (`strings.ToLower`, `strings.TrimSpace`, `hex.EncodeToString`) are written out.
-/

namespace Sigwasm

/-- One octet. -/
abbrev Byte := Fin 256

/-! ## Values crossing the host boundary -/

/-- A JavaScript value of a type `syscall/js` knows, as seen through its
accessors: the type, and the payload for the two kinds the program reads.
`uint8Array` stands for a `Uint8Array` or a `Uint8ClampedArray`: `Length`,
`CopyBytesToGo` and `String` treat the two alike. Every other object,
including the other typed arrays, is `object`. -/
inductive Value where
  | undefined
  | null
  | boolean (b : Bool)
  | number (text : String)
  | symbol
  | object
  | func
  | string (s : String)
  | uint8Array (bytes : List Byte)
  deriving DecidableEq, Repr

/-- The method `Value.String` on a value of a known type: the string itself
for a JavaScript string, a bracketed description of the type for everything
else. -/
def Value.String : Value → String
  | .string s => s
  | .undefined => "<undefined>"
  | .null => "<null>"
  | .boolean b => "<boolean: " ++ (if b then "true" else "false") ++ ">"
  | .number t => "<number: " ++ t ++ ">"
  | .symbol => "<symbol>"
  | .object => "<object>"
  | .func => "<function>"
  | .uint8Array _ => "<object>"

/-- An argument handed to a callback (`js.Value`): a value of a known type, or
a BigInt, whose type flag `syscall/js` does not know. -/
inductive Arg where
  | typed (v : Value)
  | bigint (text : String)
  deriving DecidableEq, Repr

/-- A value of a known type used as an argument. -/
instance : Coe Value Arg := ⟨Arg.typed⟩

/-- The call `v.String()` on an argument: the text of `Value.String` for a value
of a known type; a panic (`none`) for a BigInt, on which `v.Type()` fails with
a bad type flag. -/
def Arg.String : Arg → Option String
  | .typed v => some v.String
  | .bigint _ => none

/-- The pair `buf := make([]byte, v.Length()); js.CopyBytesToGo(buf, v)`:
the bytes of a `Uint8Array` or `Uint8ClampedArray`; a panic (`none`) for every
other argument (`Length` panics on what is not an object, `CopyBytesToGo` on an
object that is neither kind of array). -/
def CopyBytesToGo : Arg → Option (List Byte)
  | .typed (.uint8Array bs) => some bs
  | _ => none

/-- A dynamically typed entry of a returned map (`any`). -/
inductive Any where
  | bool (b : Bool)
  | string (s : String)
  deriving DecidableEq, Repr

/-- The literal `map[string]any{"ok": true}`. -/
def okTrue : List (String × Any) := [("ok", Any.bool true)]

/-- The literal `map[string]any{"ok": false, "error": msg}`. -/
def okFalse (msg : String) : List (String × Any) :=
  [("ok", Any.bool false), ("error", Any.string msg)]

/-! ## String helpers of the Go standard library -/

/-- UTF-8 encoding of one rune. -/
def utf8EncodeRune (c : Char) : List Byte :=
  let n := c.toNat
  if n < 0x80 then [⟨n % 256, Nat.mod_lt _ (by decide)⟩]
  else if n < 0x800 then
    [⟨(0xC0 + n / 64) % 256, Nat.mod_lt _ (by decide)⟩,
     ⟨(0x80 + n % 64) % 256, Nat.mod_lt _ (by decide)⟩]
  else if n < 0x10000 then
    [⟨(0xE0 + n / 4096) % 256, Nat.mod_lt _ (by decide)⟩,
     ⟨(0x80 + n / 64 % 64) % 256, Nat.mod_lt _ (by decide)⟩,
     ⟨(0x80 + n % 64) % 256, Nat.mod_lt _ (by decide)⟩]
  else
    [⟨(0xF0 + n / 262144) % 256, Nat.mod_lt _ (by decide)⟩,
     ⟨(0x80 + n / 4096 % 64) % 256, Nat.mod_lt _ (by decide)⟩,
     ⟨(0x80 + n / 64 % 64) % 256, Nat.mod_lt _ (by decide)⟩,
     ⟨(0x80 + n % 64) % 256, Nat.mod_lt _ (by decide)⟩]

/-- The conversion `[]byte(s)`. -/
def stringToBytes (s : String) : List Byte :=
  s.data.foldr (fun c acc => utf8EncodeRune c ++ acc) []

/-- The function `unicode.ToLower` on one rune: the ASCII range is handled
inline, every other rune goes through the case tables (`special`). -/
def toLowerRune (special : Char → Char) (c : Char) : Char :=
  if c.toNat ≤ 0x7F then
    if 65 ≤ c.toNat ∧ c.toNat ≤ 90 then Char.ofNat (c.toNat + 32) else c
  else special c

/-- The function `strings.ToLower`. -/
def ToLower (special : Char → Char) (s : String) : String :=
  String.mk (s.data.map (toLowerRune special))

/-- The predicate `unicode.IsSpace`. -/
def isSpace (c : Char) : Bool :=
  let n := c.toNat
  if n ≤ 0xFF then
    n = 9 ∨ n = 10 ∨ n = 11 ∨ n = 12 ∨ n = 13 ∨ n = 32 ∨ n = 0x85 ∨ n = 0xA0
  else
    n = 0x1680 ∨ (0x2000 ≤ n ∧ n ≤ 0x200A) ∨ n = 0x2028 ∨ n = 0x2029 ∨
      n = 0x202F ∨ n = 0x205F ∨ n = 0x3000

/-- The function `strings.TrimSpace`: leading and trailing white space removed. -/
def TrimSpace (s : String) : String :=
  String.mk ((s.data.dropWhile isSpace).reverse.dropWhile isSpace).reverse

/-- The digit table of `encoding/hex`. -/
def hextable : List Char :=
  ['0', '1', '2', '3', '4', '5', '6', '7', '8', '9', 'a', 'b', 'c', 'd', 'e', 'f']

/-- The two digits `hextable[v>>4], hextable[v&0x0f]` of one byte. -/
def hexOfByte (v : Byte) : List Char :=
  [hextable.getD (v.val / 16) '0', hextable.getD (v.val % 16) '0']

/-- The function `hex.EncodeToString`. -/
def EncodeToString (src : List Byte) : String :=
  String.mk (src.foldr (fun v acc => hexOfByte v ++ acc) [])

/-! ## External collaborators -/

/-- A decoded PEM block (`pem.Block`). -/
structure Block where
  type : String
  headers : List (String × String)
  bytes : List Byte
  deriving DecidableEq, Repr

/-- An option handed to `verify.NewVerifier`. -/
inductive VerifierOption where
  | withSignedCertificateTimestamps (threshold : Nat)
  | withTransparencyLog (threshold : Nat)
  | withIntegratedTimestamps (threshold : Nat)
  deriving DecidableEq, Repr

/-- The artifact option `verify.WithArtifact(bytes.NewReader(artifact))`. -/
inductive ArtifactPolicyOption where
  | withArtifact (artifact : List Byte)
  deriving DecidableEq, Repr

/-- The constraint option of a policy: `verify.WithCertificateIdentity(cid)` or
`verify.WithKey()`. -/
inductive PolicyOption (CID : Type) where
  | withCertificateIdentity (cid : CID)
  | withKey
  deriving DecidableEq, Repr

/-- The value built by `verify.NewPolicy(art, opt)`. -/
structure PolicyBuilder (CID : Type) where
  artifact : ArtifactPolicyOption
  option : PolicyOption CID
  deriving DecidableEq, Repr

/-- The function `verify.NewPolicy`. -/
def NewPolicy {CID : Type} (art : ArtifactPolicyOption) (opt : PolicyOption CID) :
    PolicyBuilder CID :=
  { artifact := art, option := opt }

/-- The struct `publicKeyContent` declared in `sigverifyWithKey`. -/
structure publicKeyContent where
  Content : String
  deriving DecidableEq, Repr

/-- The struct `publicKeyIdentifier` declared in `sigverifyWithKey`. -/
structure publicKeyIdentifier where
  Hint : String
  deriving DecidableEq, Repr

/-- The struct `vmContent`: both members are pointers, `none` is `nil`. -/
structure vmContent where
  PublicKey : Option publicKeyContent
  PublicKeyIdentifier : Option publicKeyIdentifier
  deriving DecidableEq, Repr

/-- The struct `verificationMaterial`. -/
structure verificationMaterial where
  Content : vmContent
  deriving DecidableEq, Repr

/-- The struct `rawBundle`. -/
structure rawBundle where
  VerificationMaterial : verificationMaterial
  deriving DecidableEq, Repr

/-- The collaborators the program calls and the embedded trusted root. Each
function field is what the named library call returns; nothing is assumed about
them. -/
structure Env where
  /-- Parsed public keys (`crypto.PublicKey`, never nil). -/
  PublicKey : Type
  /-- Parsed RSA keys (`*rsa.PublicKey`). -/
  RSAPublicKey : Type
  /-- Parsed certificates (`*x509.Certificate`). -/
  Certificate : Type
  /-- Trusted roots (`*root.TrustedRoot`). -/
  TrustedRoot : Type
  /-- Verifiers (`*verify.Verifier`). -/
  Verifier : Type
  /-- Decoded bundles (`*bundle.Bundle`). -/
  Bundle : Type
  /-- Certificate identities (`verify.CertificateIdentity`). -/
  CertificateIdentity : Type
  /-- Results of a successful verification (`*verify.VerificationResult`). -/
  VerificationResult : Type
  /-- The embedded file `trusted_root.json`. -/
  trustedRootJSON : List Byte
  /-- The call `pem.Decode`: the first block and the rest, or `none` for a nil block. -/
  pemDecode : List Byte → Option (Block × List Byte)
  /-- The call `x509.ParsePKIXPublicKey`. -/
  parsePKIXPublicKey : List Byte → Except String PublicKey
  /-- The call `x509.ParsePKCS1PublicKey`. -/
  parsePKCS1PublicKey : List Byte → Except String RSAPublicKey
  /-- An RSA key used as a `crypto.PublicKey`. -/
  rsaPublicKey : RSAPublicKey → PublicKey
  /-- The call `x509.ParseCertificate`. -/
  parseCertificate : List Byte → Except String Certificate
  /-- The field `cert.PublicKey`, `none` when nil. -/
  certPublicKey : Certificate → Option PublicKey
  /-- The call `x509.MarshalPKIXPublicKey`. -/
  marshalPKIXPublicKey : PublicKey → Except String (List Byte)
  /-- The call `root.NewTrustedRootFromJSON`. -/
  newTrustedRootFromJSON : List Byte → Except String TrustedRoot
  /-- The call `verify.NewVerifier(trustedRoot, options...)`. -/
  verifyNewVerifier : TrustedRoot → List VerifierOption → Except String Verifier
  /-- The call `json.Unmarshal(bundleBytes, &b)` for a `bundle.Bundle`. -/
  jsonUnmarshalBundle : List Byte → Except String Bundle
  /-- The value of `rb` after `json.Unmarshal(bundleBytes, &rb)` on the zero
  `rawBundle`; the caller discards the error. -/
  jsonUnmarshalRawBundle : List Byte → rawBundle
  /-- The call `verify.NewShortCertificateIdentity(issuer, issuerRegex, san, sanRegex)`. -/
  newShortCertificateIdentity : String → String → String → String →
    Except String CertificateIdentity
  /-- The call `verifier.Verify(entity, pol)`. -/
  verify : Verifier → Bundle → PolicyBuilder CertificateIdentity →
    Except String VerificationResult
  /-- The call `base64.StdEncoding.DecodeString`. -/
  base64DecodeString : String → Except String (List Byte)
  /-- The call `sha256.Sum256`, a `[32]byte`. -/
  sum256 : List Byte → { d : List Byte // d.length = 32 }
  /-- The case tables of `unicode.ToLower` for runes above the ASCII range. -/
  unicodeToLower : Char → Char

/-! ## The program -/

/-- Go `decodeBundle`. -/
def decodeBundle (E : Env) (bundleBytes : List Byte) : Except String E.Bundle :=
  match E.jsonUnmarshalBundle bundleBytes with
  | .error err => .error err
  | .ok b => .ok b

/-- Go `newVerifier`. -/
def newVerifier (E : Env) (strict : Bool) : Except String E.Verifier :=
  match E.newTrustedRootFromJSON E.trustedRootJSON with
  | .error err => .error err
  | .ok trustedRoot =>
    if !strict then
      E.verifyNewVerifier trustedRoot
        [VerifierOption.withTransparencyLog 1,
         VerifierOption.withIntegratedTimestamps 1]
    else
      E.verifyNewVerifier trustedRoot
        [VerifierOption.withSignedCertificateTimestamps 1,
         VerifierOption.withTransparencyLog 1,
         VerifierOption.withIntegratedTimestamps 1]

/-- Go `spkiDERFromPEM`: the DER and the key, or the error. -/
def spkiDERFromPEM (E : Env) (pemBytes : List Byte) :
    Except String (List Byte × E.PublicKey) :=
  match E.pemDecode pemBytes with
  | none => .error "no PEM block found"
  | some (block, _) =>
    match E.parsePKIXPublicKey block.bytes with
    | .ok pk =>
      match E.marshalPKIXPublicKey pk with
      | .error err2 => .error err2
      | .ok der => .ok (der, pk)
    | .error _ =>
      match E.parsePKCS1PublicKey block.bytes with
      | .ok rsaPK =>
        match E.marshalPKIXPublicKey (E.rsaPublicKey rsaPK) with
        | .error err2 => .error err2
        | .ok der => .ok (der, E.rsaPublicKey rsaPK)
      | .error _ =>
        match E.parseCertificate block.bytes with
        | .ok cert =>
          match E.certPublicKey cert with
          | some certPK =>
            match E.marshalPKIXPublicKey certPK with
            | .error err2 => .error err2
            | .ok der => .ok (der, certPK)
          | none => .error "unsupported PEM type"
        | .error _ => .error "unsupported PEM type"

/-- Go `sigverifyWithID`; `none` is a panic in the argument accessors. -/
def sigverifyWithID (E : Env) (args : List Arg) : Option (List (String × Any)) :=
  match args with
  | [a0, a1, a2, a3] =>
    match CopyBytesToGo a0 with
    | none => none
    | some artifact =>
      match a1.String with
      | none => none
      | some issuer =>
        match a2.String with
        | none => none
        | some subject =>
          match CopyBytesToGo a3 with
          | none => none
          | some bundleBytes =>
            if issuer = "" ∨ subject = "" then
              some (okFalse "issuer and subject are required")
            else
              match newVerifier E true with
              | .error err => some (okFalse ("new verifier: " ++ err))
              | .ok verifier =>
                match decodeBundle E bundleBytes with
                | .error err => some (okFalse ("bundle decode: " ++ err))
                | .ok entity =>
                  let art := ArtifactPolicyOption.withArtifact artifact
                  match E.newShortCertificateIdentity issuer "" subject "" with
                  | .error err => some (okFalse ("identity: " ++ err))
                  | .ok cid =>
                    let pol := NewPolicy art (PolicyOption.withCertificateIdentity cid)
                    match E.verify verifier entity pol with
                    | .error err => some (okFalse err)
                    | .ok _ => some okTrue
  | _ =>
    some (okFalse
      "usage: sigverifyWithID(artifactBytes, issuer, subject, bundleJSON)")

/-- Go `sigverifyWithKey`; `none` is a panic in the argument accessors. -/
def sigverifyWithKey (E : Env) (args : List Arg) : Option (List (String × Any)) :=
  match args with
  | [a0, a1, a2] =>
    match CopyBytesToGo a0 with
    | none => none
    | some artifact =>
      match a1.String with
      | none => none
      | some pemText =>
        let pubPEM := stringToBytes pemText
        match CopyBytesToGo a2 with
        | none => none
        | some bundleBytes =>
          match spkiDERFromPEM E pubPEM with
          | .error err => some (okFalse ("public key: " ++ err))
          | .ok (wantDER, _) =>
            match newVerifier E false with
            | .error err => some (okFalse ("new verifier: " ++ err))
            | .ok verifier =>
              match decodeBundle E bundleBytes with
              | .error err => some (okFalse ("bundle decode: " ++ err))
              | .ok entity =>
                let art := ArtifactPolicyOption.withArtifact artifact
                let pol := NewPolicy art PolicyOption.withKey
                match E.verify verifier entity pol with
                | .error err => some (okFalse ("verify: " ++ err))
                | .ok _ =>
                  let rb := E.jsonUnmarshalRawBundle bundleBytes
                  match rb.VerificationMaterial.Content.PublicKey.filter
                      (fun pk => pk.Content != "") with
                  | some pk =>
                    match E.base64DecodeString pk.Content with
                    | .error err =>
                      some (okFalse ("bundle publicKey decode: " ++ err))
                    | .ok gotDER =>
                      if ¬ gotDER = wantDER then
                        some (okFalse "public key mismatch: bundle key != expected key")
                      else some okTrue
                  | none =>
                    match rb.VerificationMaterial.Content.PublicKeyIdentifier with
                    | some pkid =>
                      let hint := ToLower E.unicodeToLower (TrimSpace pkid.Hint)
                      let sum := E.sum256 wantDER
                      let fingerprint :=
                        ToLower E.unicodeToLower (EncodeToString sum.val)
                      if hint ≠ fingerprint then
                        some (okFalse "key hint mismatch")
                      else some okTrue
                    | none =>
                      some (okFalse "bundle has no public key material to pin")
  | _ =>
    some (okFalse "usage: sigverifyWithKey(artifactBytes, publicKeyPEM, bundleJSON)")

/-! ## Vocabulary of the claims -/

/-- In the key-mode call on `(artifact, a1, bundleBytes)` every step before the
pin check succeeds: the caller's PEM normalizes to `wantDER`, the non-strict
verifier is built, the bundle decodes and the engine's `Verify` returns no
error. -/
def EngineAccepts (E : Env) (artifact : List Byte) (a1 : Value)
    (bundleBytes wantDER : List Byte) : Prop :=
  ∃ (key : E.PublicKey) (verifier : E.Verifier) (entity : E.Bundle)
    (res : E.VerificationResult),
    spkiDERFromPEM E (stringToBytes a1.String) = .ok (wantDER, key) ∧
    newVerifier E false = .ok verifier ∧
    decodeBundle E bundleBytes = .ok entity ∧
    E.verify verifier entity
      (NewPolicy (ArtifactPolicyOption.withArtifact artifact) PolicyOption.withKey)
      = .ok res

/-- The raw view of the bundle has no usable embedded key: `publicKey` is
absent or its `content` is the empty string. -/
def NoEmbeddedKey (rb : rawBundle) : Prop :=
  rb.VerificationMaterial.Content.PublicKey = none ∨
    ∃ pk, rb.VerificationMaterial.Content.PublicKey = some pk ∧ pk.Content = ""

/-- The two shapes a result may take: `ok=true` with no `error` entry, or
`ok=false` with an `error` entry holding a non-empty string. -/
def WellShaped (r : List (String × Any)) : Prop :=
  r = [("ok", Any.bool true)] ∨
    ∃ msg : String, msg ≠ "" ∧ r = [("ok", Any.bool false), ("error", Any.string msg)]

/-! ## One concrete behaviour of the collaborators

Used to run the program on explicit inputs. Key texts are told apart by their
first letter: `p` parses as a PKIX key, `r` only as a PKCS#1 key, `c` only as a
certificate, `n` only as a certificate without a key; the PKIX marshalling of a
key is its text. The digest and base64 tables hold the true values for the
inputs the examples use. -/

/-- SHA-256 of the four bytes `pkey`
(`5454ed612eb5964e86e93eda6c1f5039bdaae7e04e2b935ef0d1c45910ab3e1a`). -/
def digestPkey : { d : List Byte // d.length = 32 } :=
  ⟨[84, 84, 237, 97, 46, 181, 150, 78, 134, 233, 62, 218, 108, 31, 80, 57,
    189, 170, 231, 224, 78, 43, 147, 94, 240, 209, 196, 89, 16, 171, 62, 26], by decide⟩

/-- Placeholder digest for inputs outside the table. -/
def digestOther : { d : List Byte // d.length = 32 } :=
  ⟨List.replicate 32 0, by decide⟩

/-- The collaborators of one run: the raw view of the bundle bytes is given by
`raw` and the engine answers `engine`. -/
def scenario (raw : List Byte → rawBundle) (engine : Except String Unit) : Env where
  PublicKey := List Byte
  RSAPublicKey := List Byte
  Certificate := List Byte
  TrustedRoot := Unit
  Verifier := List VerifierOption
  Bundle := List Byte
  CertificateIdentity := String × String × String × String
  VerificationResult := Unit
  trustedRootJSON := []
  pemDecode := fun bs =>
    if bs = [] then none
    else if bs.head? = some 114 then
      some ({ type := "RSA PUBLIC KEY", headers := [], bytes := bs }, [])
    else if bs.head? = some 99 ∨ bs.head? = some 110 then
      some ({ type := "CERTIFICATE", headers := [], bytes := bs }, [])
    else some ({ type := "PUBLIC KEY", headers := [], bytes := bs }, [])
  parsePKIXPublicKey := fun b =>
    if b.head? = some 112 then .ok b else .error "x509: failed to parse public key"
  parsePKCS1PublicKey := fun b =>
    if b.head? = some 114 then .ok b else .error "x509: failed to parse public key"
  rsaPublicKey := fun k => k
  parseCertificate := fun b =>
    if b.head? = some 99 ∨ b.head? = some 110 then .ok b
    else .error "x509: malformed certificate"
  certPublicKey := fun c => if c.head? = some 110 then none else some c
  marshalPKIXPublicKey := fun k => .ok k
  newTrustedRootFromJSON := fun _ => .ok ()
  verifyNewVerifier := fun _ opts => .ok opts
  jsonUnmarshalBundle := fun bs =>
    if bs = [] then .error "unexpected end of JSON input" else .ok bs
  jsonUnmarshalRawBundle := raw
  newShortCertificateIdentity := fun issuer issuerRegex san sanRegex =>
    .ok (issuer, issuerRegex, san, sanRegex)
  verify := fun _ _ _ => engine
  base64DecodeString := fun t =>
    if t = "cGtleQ==" then .ok [112, 107, 101, 121]
    else if t = "cGtleg==" then .ok [112, 107, 101, 122]
    else .error "illegal base64 data at input byte 0"
  sum256 := fun bs => if bs = [112, 107, 101, 121] then digestPkey else digestOther
  unicodeToLower := fun c => c

/-- A raw bundle view with the given embedded key content and hint. -/
def rawOf (content hint : Option String) : rawBundle :=
  { VerificationMaterial :=
      { Content :=
          { PublicKey := content.map (fun c => { Content := c })
            PublicKeyIdentifier := hint.map (fun h => { Hint := h }) } } }

/-- A run whose bundle embeds the key `pkey` (base64 `cGtleQ==`) and which the
engine accepts. -/
def runEmbedded : Env :=
  scenario (fun _ => rawOf (some "cGtleQ==") none) (.ok ())

/-- A run whose bundle carries only a hint: the fingerprint of `pkey` preceded
by one space. The engine accepts. -/
def runPaddedHint : Env :=
  scenario
    (fun _ => rawOf none
      (some " 5454ed612eb5964e86e93eda6c1f5039bdaae7e04e2b935ef0d1c45910ab3e1a"))
    (.ok ())

/-- A run whose bundle has an empty `publicKey` object and no hint. The engine
accepts. -/
def runNoMaterial : Env :=
  scenario (fun _ => rawOf (some "") none) (.ok ())

/-- A run with two bundles the engine accepts: bundle `[2]` embeds the key
`pkey`, every other bundle embeds the key `pkez` (base64 `cGtleg==`). -/
def runTwoBundles : Env :=
  scenario
    (fun b => if b = [2] then rawOf (some "cGtleQ==") none else rawOf (some "cGtleg==") none)
    (.ok ())

/-- A run in which the engine rejects with an error whose message is empty. -/
def runEmptyEngineError : Env :=
  scenario (fun _ => rawOf none none) (.error "")

/-- A run in which the PEM decoder takes the first line of the input as the
first block and hands back the remaining lines as the rest. -/
def runTrailingBlock : Env :=
  { runEmbedded with
    pemDecode := fun bs =>
      if bs = [] then none
      else some ({ type := "PUBLIC KEY", headers := [], bytes := bs.takeWhile (fun b => b ≠ 10) },
        (bs.dropWhile (fun b => b ≠ 10)).drop 1) }

/-- A run in which the engine rejects a bundle embedding the key `pkey`. -/
def runEngineRejects : Env :=
  scenario (fun _ => rawOf (some "cGtleQ==") none) (.error "no matching signatures")

/-- A run in which the embedded trusted root cannot be loaded. -/
def runBrokenRoot : Env :=
  { runEmbedded with
    newTrustedRootFromJSON := fun _ => .error "failed to unmarshal trusted root" }

/-- A run whose bundle embeds the key `pkez` and also carries, as hint, the
fingerprint of `pkey`. The engine accepts. -/
def runKeyAndHint : Env :=
  scenario
    (fun _ => rawOf (some "cGtleg==")
      (some "5454ed612eb5964e86e93eda6c1f5039bdaae7e04e2b935ef0d1c45910ab3e1a"))
    (.ok ())

/-- A run with two bundles that carry only a hint: in bundle `[2]` the
fingerprint of `pkey` in upper case between spaces, in every other bundle the
same fingerprint in lower case. The engine accepts. -/
def runUpperHint : Env :=
  scenario
    (fun b =>
      if b = [2] then
        rawOf none (some "  5454ED612EB5964E86E93EDA6C1F5039BDAAE7E04E2B935EF0D1C45910AB3E1A ")
      else
        rawOf none (some "5454ed612eb5964e86e93eda6c1f5039bdaae7e04e2b935ef0d1c45910ab3e1a"))
    (.ok ())

/-- A run whose bundle carries only a hint made of three spaces. The engine
accepts. -/
def runBlankHint : Env :=
  scenario (fun _ => rawOf none (some "   ")) (.ok ())

/-! ## Auxiliary facts -/

theorem CopyBytesToGo_eq_some (a : Arg) (bs : List Byte) :
    CopyBytesToGo a = some bs ↔ a = Arg.typed (Value.uint8Array bs) := by
  cases a with
  | typed v => cases v <;> simp [CopyBytesToGo]
  | bigint text => simp [CopyBytesToGo]

theorem Arg_String_eq_some (a : Arg) (text : String) :
    a.String = some text ↔ ∃ v : Value, a = Arg.typed v ∧ v.String = text := by
  cases a with
  | typed v => simp [Arg.String]
  | bigint t => simp [Arg.String]

/-- A BigInt where a string is expected makes `String` panic: the call returns
nothing, also when the byte arguments are arrays. -/
theorem sigverifyWithKey_bigint_panics (E : Env) (artifact bundleBytes : List Byte)
    (text : String) :
    sigverifyWithKey E
      [Value.uint8Array artifact, Arg.bigint text, Value.uint8Array bundleBytes] = none := by
  simp only [sigverifyWithKey, CopyBytesToGo, Arg.String]

theorem okFalse_ne_okTrue (msg : String) : okFalse msg ≠ okTrue := by
  simp [okFalse, okTrue]

theorem toLowerRune_hextable (sp : Char → Char) (n : Nat) (h : n < 16) :
    toLowerRune sp (hextable.getD n '0') = hextable.getD n '0' := by
  interval_cases n <;> simp [toLowerRune, hextable]

theorem map_toLowerRune_hexOfByte (sp : Char → Char) (v : Byte) :
    (hexOfByte v).map (toLowerRune sp) = hexOfByte v := by
  have h1 : v.val / 16 < 16 := by omega
  have h2 : v.val % 16 < 16 := Nat.mod_lt _ (by decide)
  simp only [hexOfByte, List.map, toLowerRune_hextable sp _ h1, toLowerRune_hextable sp _ h2]

/-- Lower-casing a hex encoding changes nothing: the digits are `0-9a-f`. -/
theorem ToLower_EncodeToString (sp : Char → Char) (src : List Byte) :
    ToLower sp (EncodeToString src) = EncodeToString src := by
  unfold ToLower EncodeToString
  congr 1
  induction src with
  | nil => rfl
  | cons v vs ih =>
    simp only [List.foldr_cons, List.map_append, map_toLowerRune_hexOfByte]
    rw [ih]

/-- A message that starts with a non-empty label is non-empty. -/
theorem append_ne_empty (label err : String) (h : label ≠ "") : label ++ err ≠ "" := by
  intro hcat
  apply h
  have hlen : (label ++ err).length = 0 := by rw [hcat]; rfl
  rw [String.length_append] at hlen
  have h0 : label.length = 0 := by omega
  exact String.ext (List.length_eq_zero.mp h0)

/-- A failure whose message is non-empty has the second shape. -/
theorem wellShaped_okFalse (msg : String) (h : msg ≠ "") : WellShaped (okFalse msg) :=
  Or.inr ⟨msg, h, rfl⟩

/-- A non-empty embedded key content is selected by the first pin branch. -/
theorem filter_embedded (o : Option publicKeyContent) (pk : publicKeyContent)
    (hP : o = some pk) (hc : pk.Content ≠ "") :
    o.filter (fun pk => pk.Content != "") = some pk := by
  subst hP
  simp [Option.filter_some, hc]

/-- An absent or empty embedded key content is skipped by the first pin branch. -/
theorem filter_no_embedded (o : Option publicKeyContent)
    (hP : o = none ∨ ∃ pk, o = some pk ∧ pk.Content = "") :
    o.filter (fun pk => pk.Content != "") = none := by
  rcases hP with hP | ⟨pk, hP, hc⟩
  · subst hP; rfl
  · subst hP
    simp [Option.filter_some, hc]

/-- Every DER returned by `spkiDERFromPEM` is the PKIX marshalling of the
returned key. -/
theorem spkiDERFromPEM_ok_marshal (E : Env) (pemBytes der : List Byte) (key : E.PublicKey)
    (h : spkiDERFromPEM E pemBytes = .ok (der, key)) :
    E.marshalPKIXPublicKey key = .ok der := by
  unfold spkiDERFromPEM at h
  repeat' split at h
  all_goals first
    | (simp only [Except.ok.injEq, Prod.mk.injEq] at h
       obtain ⟨h1, h2⟩ := h
       subst h1 h2
       assumption)
    | simp at h

/-- Once the engine has accepted, the result of `sigverifyWithKey` is the
outcome of the pin check. -/
theorem sigverifyWithKey_after_engine (E : Env) (artifact : List Byte) (a1 : Value)
    (bundleBytes wantDER : List Byte) (key : E.PublicKey) (verifier : E.Verifier)
    (entity : E.Bundle) (res : E.VerificationResult)
    (hk : spkiDERFromPEM E (stringToBytes a1.String) = .ok (wantDER, key))
    (hv : newVerifier E false = .ok verifier)
    (he : decodeBundle E bundleBytes = .ok entity)
    (hr : E.verify verifier entity
      (NewPolicy (ArtifactPolicyOption.withArtifact artifact) PolicyOption.withKey)
      = .ok res) :
    sigverifyWithKey E [Value.uint8Array artifact, a1, Value.uint8Array bundleBytes] =
      match (E.jsonUnmarshalRawBundle bundleBytes).VerificationMaterial.Content.PublicKey.filter
          (fun pk => pk.Content != "") with
      | some pk =>
        match E.base64DecodeString pk.Content with
        | .error err => some (okFalse ("bundle publicKey decode: " ++ err))
        | .ok gotDER =>
          if ¬ gotDER = wantDER then
            some (okFalse "public key mismatch: bundle key != expected key")
          else some okTrue
      | none =>
        match (E.jsonUnmarshalRawBundle bundleBytes).VerificationMaterial.Content.PublicKeyIdentifier with
        | some pkid =>
          if ToLower E.unicodeToLower (TrimSpace pkid.Hint) ≠
              ToLower E.unicodeToLower (EncodeToString (E.sum256 wantDER).val) then
            some (okFalse "key hint mismatch")
          else some okTrue
        | none => some (okFalse "bundle has no public key material to pin") := by
  simp only [sigverifyWithKey, CopyBytesToGo, Arg.String, hk, hv, he, hr]

/-- The pin check decides the result whenever the earlier steps succeed. -/
theorem sigverifyWithKey_of_accepts (E : Env) (artifact : List Byte) (a1 : Value)
    (bundleBytes wantDER : List Byte)
    (hacc : EngineAccepts E artifact a1 bundleBytes wantDER) :
    sigverifyWithKey E [Value.uint8Array artifact, a1, Value.uint8Array bundleBytes] =
      match (E.jsonUnmarshalRawBundle bundleBytes).VerificationMaterial.Content.PublicKey.filter
          (fun pk => pk.Content != "") with
      | some pk =>
        match E.base64DecodeString pk.Content with
        | .error err => some (okFalse ("bundle publicKey decode: " ++ err))
        | .ok gotDER =>
          if ¬ gotDER = wantDER then
            some (okFalse "public key mismatch: bundle key != expected key")
          else some okTrue
      | none =>
        match (E.jsonUnmarshalRawBundle bundleBytes).VerificationMaterial.Content.PublicKeyIdentifier with
        | some pkid =>
          if ToLower E.unicodeToLower (TrimSpace pkid.Hint) ≠
              ToLower E.unicodeToLower (EncodeToString (E.sum256 wantDER).val) then
            some (okFalse "key hint mismatch")
          else some okTrue
        | none => some (okFalse "bundle has no public key material to pin") := by
  obtain ⟨key, verifier, entity, res, hk, hv, he, hr⟩ := hacc
  exact sigverifyWithKey_after_engine E artifact a1 bundleBytes wantDER key verifier entity res
    hk hv he hr

/-- Inversion of a successful key-mode result. -/
theorem sigverifyWithKey_ok_inv (E : Env) (args : List Arg)
    (h : sigverifyWithKey E args = some okTrue) :
    ∃ (artifact : List Byte) (a1 : Value) (bundleBytes wantDER : List Byte)
      (key : E.PublicKey) (verifier : E.Verifier) (entity : E.Bundle)
      (res : E.VerificationResult),
      args = ([Value.uint8Array artifact, a1, Value.uint8Array bundleBytes] : List Arg) ∧
      spkiDERFromPEM E (stringToBytes a1.String) = .ok (wantDER, key) ∧
      newVerifier E false = .ok verifier ∧
      decodeBundle E bundleBytes = .ok entity ∧
      E.verify verifier entity
        (NewPolicy (ArtifactPolicyOption.withArtifact artifact) PolicyOption.withKey)
        = .ok res ∧
      ((∃ pk, (E.jsonUnmarshalRawBundle bundleBytes).VerificationMaterial.Content.PublicKey
              = some pk ∧ pk.Content ≠ "" ∧
              E.base64DecodeString pk.Content = .ok wantDER) ∨
       (((E.jsonUnmarshalRawBundle bundleBytes).VerificationMaterial.Content.PublicKey
              = none ∨
         (E.jsonUnmarshalRawBundle bundleBytes).VerificationMaterial.Content.PublicKey
              = some { Content := "" }) ∧
        ∃ pkid,
          (E.jsonUnmarshalRawBundle bundleBytes).VerificationMaterial.Content.PublicKeyIdentifier
              = some pkid ∧
          ToLower E.unicodeToLower (TrimSpace pkid.Hint)
              = EncodeToString (E.sum256 wantDER).val)) := by
  rcases args with _ | ⟨a0, _ | ⟨a1, _ | ⟨a2, _ | ⟨a3, rest⟩⟩⟩⟩ <;>
    try (simp [sigverifyWithKey, okFalse, okTrue] at h; done)
  unfold sigverifyWithKey at h
  simp only at h
  split at h
  · simp at h
  rename_i artifact h0
  split at h
  · simp at h
  rename_i pemText h1
  split at h
  · simp at h
  rename_i bundleBytes h2
  split at h
  · simp [okFalse, okTrue] at h
  rename_i wantDER key hk
  split at h
  · simp [okFalse, okTrue] at h
  rename_i verifier hv
  split at h
  · simp [okFalse, okTrue] at h
  rename_i entity he
  split at h
  · simp [okFalse, okTrue] at h
  rename_i res hr
  rw [CopyBytesToGo_eq_some] at h0 h2
  obtain ⟨v1, h1, hs1⟩ := (Arg_String_eq_some _ _).mp h1
  subst h0 h1 h2 hs1
  refine ⟨artifact, v1, bundleBytes, wantDER, key, verifier, entity, res, rfl, hk, hv, he,
    hr, ?_⟩
  split at h
  · rename_i pk hpk
    left
    cases hP : (E.jsonUnmarshalRawBundle bundleBytes).VerificationMaterial.Content.PublicKey with
    | none => simp [hP] at hpk
    | some pk0 =>
      rw [hP, Option.filter_some] at hpk
      split at hpk
      · rename_i hc
        simp only [Option.some.injEq] at hpk
        subst hpk
        refine ⟨pk0, rfl, by simpa using hc, ?_⟩
        split at h
        · simp [okFalse, okTrue] at h
        · rename_i gotDER hg
          split at h
          · simp [okFalse, okTrue] at h
          · rename_i heq
            rw [hg]
            simp only [not_not] at heq
            rw [heq]
      · simp at hpk
  · rename_i hpk
    right
    constructor
    · cases hP : (E.jsonUnmarshalRawBundle bundleBytes).VerificationMaterial.Content.PublicKey with
      | none => left; rfl
      | some pk0 =>
        right
        rw [hP, Option.filter_some] at hpk
        split at hpk
        · simp at hpk
        · rename_i hc
          cases pk0 with
          | mk c =>
            simp at hc
            simp [hc]
    · split at h
      · rename_i pkid hid
        refine ⟨pkid, hid, ?_⟩
        simp only [ToLower_EncodeToString] at h
        split at h
        · simp [okFalse, okTrue] at h
        · rename_i heq
          simpa using heq
      · simp [okFalse, okTrue] at h

/-- Identity mode never reads the raw key material, the base64 decoder or the
digest. -/
theorem sigverifyWithID_ignores_key_material (E : Env) (raw : List Byte → rawBundle)
    (b64 : String → Except String (List Byte))
    (sum : List Byte → { d : List Byte // d.length = 32 }) (args : List Arg) :
    sigverifyWithID
        { E with jsonUnmarshalRawBundle := raw, base64DecodeString := b64, sum256 := sum }
        args = sigverifyWithID E args := by
  rcases args with _ | ⟨a0, _ | ⟨a1, _ | ⟨a2, _ | ⟨a3, _ | ⟨a4, rest⟩⟩⟩⟩⟩ <;> try rfl
  simp only [sigverifyWithID, newVerifier, decodeBundle, Bool.not_true, Bool.false_eq_true,
    if_false]
  cases CopyBytesToGo a0 with
  | none => rfl
  | some artifact =>
    cases a1.String with
    | none => rfl
    | some issuer =>
      cases a2.String with
      | none => rfl
      | some subject =>
        cases CopyBytesToGo a3 with
        | none => rfl
        | some bundleBytes =>
          by_cases hcond : issuer = "" ∨ subject = ""
          · simp only [hcond, if_true]
          · simp only [hcond, if_false]
            cases hroot : E.newTrustedRootFromJSON E.trustedRootJSON with
            | error e => simp only [hroot]
            | ok r =>
              simp only [hroot]
              cases hver : E.verifyNewVerifier r
                  [VerifierOption.withSignedCertificateTimestamps 1,
                   VerifierOption.withTransparencyLog 1,
                   VerifierOption.withIntegratedTimestamps 1] with
              | error e => simp only [hver]
              | ok v =>
                simp only [hver]
                cases hdec : E.jsonUnmarshalBundle bundleBytes with
                | error e => simp only [hdec]
                | ok b =>
                  simp only [hdec]
                  cases hcid : E.newShortCertificateIdentity issuer "" subject "" with
                  | error e => simp only [hcid]
                  | ok cid =>
                    simp only [hcid]
                    cases hres : E.verify v b
                        (NewPolicy (ArtifactPolicyOption.withArtifact artifact)
                          (PolicyOption.withCertificateIdentity cid)) with
                    | error e => simp only [hres]
                    | ok res => simp only [hres]

/-- Replacing the engine does not change the verifier that is built. -/
theorem newVerifier_with_verify (E : Env)
    (verify2 : E.Verifier → E.Bundle → PolicyBuilder E.CertificateIdentity →
      Except String E.VerificationResult) (strict : Bool) :
    newVerifier { E with verify := verify2 } strict = newVerifier E strict := by
  simp only [newVerifier]
  cases hroot : E.newTrustedRootFromJSON E.trustedRootJSON with
  | error err => simp only [hroot]
  | ok trustedRoot =>
    simp only [hroot]

/-- Replacing the engine does not change the decoding of the bundle. -/
theorem decodeBundle_with_verify (E : Env)
    (verify2 : E.Verifier → E.Bundle → PolicyBuilder E.CertificateIdentity →
      Except String E.VerificationResult) (bundleBytes : List Byte) :
    decodeBundle { E with verify := verify2 } bundleBytes = decodeBundle E bundleBytes := by
  simp only [decodeBundle]
  cases hdec : E.jsonUnmarshalBundle bundleBytes <;> simp only [hdec]

/-- Replacing the engine does not change the normalization of a key. -/
theorem spkiDERFromPEM_with_verify (E : Env)
    (verify2 : E.Verifier → E.Bundle → PolicyBuilder E.CertificateIdentity →
      Except String E.VerificationResult) (pemBytes : List Byte) :
    spkiDERFromPEM { E with verify := verify2 } pemBytes = spkiDERFromPEM E pemBytes := by
  simp only [spkiDERFromPEM]
  cases h0 : E.pemDecode pemBytes with
  | none => simp only [h0]
  | some p =>
    obtain ⟨block, rest⟩ := p
    simp only [h0]
    cases h1 : E.parsePKIXPublicKey block.bytes with
    | ok pk =>
      simp only [h1]
    | error err1 =>
      simp only [h1]
      cases h3 : E.parsePKCS1PublicKey block.bytes with
      | ok rsaPK =>
        simp only [h3]
      | error err2 =>
        simp only [h3]
        cases h5 : E.parseCertificate block.bytes with
        | error err3 => simp only [h5]
        | ok cert =>
          simp only [h5]
          cases h6 : E.certPublicKey cert with
          | none => simp only [h6]
          | some certPK =>
            simp only [h6]

/-- Replacing the trusted root, the verifier construction, the bundle decoders
and the engine does not change the normalization of a key. -/
theorem spkiDERFromPEM_with_later_steps (E : Env) (rootJSON : List Byte)
    (newRoot : List Byte → Except String E.TrustedRoot)
    (newV : E.TrustedRoot → List VerifierOption → Except String E.Verifier)
    (dec : List Byte → Except String E.Bundle)
    (raw : List Byte → rawBundle)
    (verify2 : E.Verifier → E.Bundle → PolicyBuilder E.CertificateIdentity →
      Except String E.VerificationResult) (pemBytes : List Byte) :
    spkiDERFromPEM
        { E with
          trustedRootJSON := rootJSON, newTrustedRootFromJSON := newRoot,
          verifyNewVerifier := newV, jsonUnmarshalBundle := dec,
          jsonUnmarshalRawBundle := raw, verify := verify2 }
        pemBytes = spkiDERFromPEM E pemBytes := by
  simp only [spkiDERFromPEM]
  cases h0 : E.pemDecode pemBytes with
  | none => simp only [h0]
  | some p =>
    obtain ⟨block, rest⟩ := p
    simp only [h0]
    cases h1 : E.parsePKIXPublicKey block.bytes with
    | ok pk =>
      simp only [h1]
    | error err1 =>
      simp only [h1]
      cases h3 : E.parsePKCS1PublicKey block.bytes with
      | ok rsaPK =>
        simp only [h3]
      | error err2 =>
        simp only [h3]
        cases h5 : E.parseCertificate block.bytes with
        | error err3 => simp only [h5]
        | ok cert =>
          simp only [h5]
          cases h6 : E.certPublicKey cert with
          | none => simp only [h6]
          | some certPK =>
            simp only [h6]

/-- Every entry of the digit table is one of `0-9a-f`. -/
theorem hextable_getD_mem (n : Nat) (h : n < 16) : hextable.getD n '0' ∈ hextable := by
  interval_cases n <;> simp [hextable]

/-- A hex encoding holds two characters per byte. -/
theorem EncodeToString_length (src : List Byte) :
    (EncodeToString src).length = 2 * src.length := by
  show (src.foldr (fun v acc => hexOfByte v ++ acc) []).length = 2 * src.length
  induction src with
  | nil => rfl
  | cons v vs ih =>
    have hv : (hexOfByte v).length = 2 := rfl
    simp only [List.foldr_cons, List.length_append, List.length_cons, ih, hv]
    omega

/-- A hex encoding holds only the characters `0-9a-f`. -/
theorem EncodeToString_hex (src : List Byte) :
    ∀ c ∈ (EncodeToString src).data, c ∈ hextable := by
  show ∀ c ∈ src.foldr (fun v acc => hexOfByte v ++ acc) [], c ∈ hextable
  induction src with
  | nil => intro c hc; cases hc
  | cons v vs ih =>
    intro c hc
    simp only [List.foldr_cons, List.mem_append] at hc
    rcases hc with hc | hc
    · simp only [hexOfByte, List.mem_cons, List.mem_singleton, List.not_mem_nil,
        or_false] at hc
      rcases hc with rfl | rfl
      · exact hextable_getD_mem _ (by omega)
      · exact hextable_getD_mem _ (Nat.mod_lt _ (by decide))
    · exact ih c hc

/-- Lower-casing keeps the number of characters. -/
theorem ToLower_length (sp : Char → Char) (s : String) :
    (ToLower sp s).length = s.length := by
  show (s.data.map (toLowerRune sp)).length = s.data.length
  exact List.length_map _ _

/-- Trimming a string made of white space only leaves the empty string. -/
theorem TrimSpace_blank (s : String) (h : ∀ c ∈ s.data, isSpace c = true) :
    TrimSpace s = "" := by
  have hd : s.data.dropWhile isSpace = [] := List.dropWhile_eq_nil_iff.mpr h
  simp only [TrimSpace, hd]
  rfl

/-- An ASCII rune is one byte long in UTF-8, every other rune is longer. -/
theorem utf8EncodeRune_length (c : Char) :
    (c.toNat ≤ 0x7F → (utf8EncodeRune c).length = 1) ∧
    (0x7F < c.toNat → 1 < (utf8EncodeRune c).length) := by
  constructor
  · intro h
    have h2 : c.toNat < 0x80 := by omega
    simp only [utf8EncodeRune, h2, if_true, List.length_singleton]
  · intro h
    have h2 : ¬ c.toNat < 0x80 := by omega
    simp only [utf8EncodeRune, h2, if_false]
    split_ifs <;> simp

/-- A string of ASCII runes has as many bytes as characters. -/
theorem stringToBytes_length_ascii (l : List Char) (h : ∀ c ∈ l, c.toNat ≤ 0x7F) :
    (l.foldr (fun c acc => utf8EncodeRune c ++ acc) []).length = l.length := by
  induction l with
  | nil => rfl
  | cons c cs ih =>
    have hc := (utf8EncodeRune_length c).1 (h c (List.mem_cons_self _ _))
    have hcs := ih (fun d hd => h d (List.mem_cons_of_mem _ hd))
    simp only [List.foldr_cons, List.length_append, List.length_cons, hc, hcs]
    omega

/-- In the hint branch the result is decided by comparing the trimmed,
lower-cased hint with the hex fingerprint. -/
theorem sigverifyWithKey_hint_branch (E : Env) (artifact : List Byte) (a1 : Value)
    (bundleBytes wantDER : List Byte) (pkid : publicKeyIdentifier)
    (hacc : EngineAccepts E artifact a1 bundleBytes wantDER)
    (hno : NoEmbeddedKey (E.jsonUnmarshalRawBundle bundleBytes))
    (hid : (E.jsonUnmarshalRawBundle bundleBytes).VerificationMaterial.Content.PublicKeyIdentifier
      = some pkid) :
    sigverifyWithKey E [Value.uint8Array artifact, a1, Value.uint8Array bundleBytes] =
      if ToLower E.unicodeToLower (TrimSpace pkid.Hint)
          = EncodeToString (E.sum256 wantDER).val then some okTrue
      else some (okFalse "key hint mismatch") := by
  rw [sigverifyWithKey_of_accepts E artifact a1 bundleBytes wantDER hacc,
    filter_no_embedded _ hno]
  simp only [hid, ToLower_EncodeToString]
  by_cases heq : ToLower E.unicodeToLower (TrimSpace pkid.Hint)
      = EncodeToString (E.sum256 wantDER).val
  · simp [heq]
  · simp [heq]

/-! ## Claims -/

/-- C1: whenever `sigverifyWithKey` returns `{ok:true}`, the call had three
arguments, the key was normalized to `wantDER`, the verifier was built, the
bundle decoded, the engine's `Verify` returned no error, and the pin check
passed: either the embedded key content is non-empty and base64-decodes to
`wantDER`, or the embedded key is absent or empty, a `publicKeyIdentifier` is
present and its trimmed, lower-cased hint equals the hex SHA-256 of `wantDER`. -/
theorem sigverifyWithKey_ok_needs_engine_and_pin (E : Env) (args : List Arg)
    (h : sigverifyWithKey E args = some okTrue) :
    ∃ (artifact : List Byte) (a1 : Value) (bundleBytes wantDER : List Byte)
      (key : E.PublicKey) (verifier : E.Verifier) (entity : E.Bundle)
      (res : E.VerificationResult),
      args = ([Value.uint8Array artifact, a1, Value.uint8Array bundleBytes] : List Arg) ∧
      spkiDERFromPEM E (stringToBytes a1.String) = .ok (wantDER, key) ∧
      newVerifier E false = .ok verifier ∧
      decodeBundle E bundleBytes = .ok entity ∧
      E.verify verifier entity
        (NewPolicy (ArtifactPolicyOption.withArtifact artifact) PolicyOption.withKey)
        = .ok res ∧
      ((∃ pk, (E.jsonUnmarshalRawBundle bundleBytes).VerificationMaterial.Content.PublicKey
              = some pk ∧ pk.Content ≠ "" ∧
              E.base64DecodeString pk.Content = .ok wantDER) ∨
       (((E.jsonUnmarshalRawBundle bundleBytes).VerificationMaterial.Content.PublicKey
              = none ∨
         (E.jsonUnmarshalRawBundle bundleBytes).VerificationMaterial.Content.PublicKey
              = some { Content := "" }) ∧
        ∃ pkid,
          (E.jsonUnmarshalRawBundle bundleBytes).VerificationMaterial.Content.PublicKeyIdentifier
              = some pkid ∧
          ToLower E.unicodeToLower (TrimSpace pkid.Hint)
              = EncodeToString (E.sum256 wantDER).val)) :=
  sigverifyWithKey_ok_inv E args h

/-- C1, at a concrete run: a bundle embedding the caller's key passes, and the
conclusion of the inversion holds there. -/
theorem sigverifyWithKey_ok_needs_engine_and_pin_witness :
    sigverifyWithKey runEmbedded
        [Value.uint8Array [1], Value.string "pkey", Value.uint8Array [2]] = some okTrue ∧
    ∃ (artifact : List Byte) (a1 : Value) (bundleBytes wantDER : List Byte)
      (key : runEmbedded.PublicKey) (verifier : runEmbedded.Verifier)
      (entity : runEmbedded.Bundle) (res : runEmbedded.VerificationResult),
      ([Value.uint8Array [1], Value.string "pkey", Value.uint8Array [2]] : List Arg)
        = [Value.uint8Array artifact, a1, Value.uint8Array bundleBytes] ∧
      spkiDERFromPEM runEmbedded (stringToBytes a1.String) = .ok (wantDER, key) ∧
      newVerifier runEmbedded false = .ok verifier ∧
      decodeBundle runEmbedded bundleBytes = .ok entity ∧
      runEmbedded.verify verifier entity
        (NewPolicy (ArtifactPolicyOption.withArtifact artifact) PolicyOption.withKey)
        = .ok res ∧
      ((∃ pk,
          (runEmbedded.jsonUnmarshalRawBundle bundleBytes).VerificationMaterial.Content.PublicKey
              = some pk ∧ pk.Content ≠ "" ∧
              runEmbedded.base64DecodeString pk.Content = .ok wantDER) ∨
       (((runEmbedded.jsonUnmarshalRawBundle bundleBytes).VerificationMaterial.Content.PublicKey
              = none ∨
         (runEmbedded.jsonUnmarshalRawBundle bundleBytes).VerificationMaterial.Content.PublicKey
              = some { Content := "" }) ∧
        ∃ pkid,
          (runEmbedded.jsonUnmarshalRawBundle
              bundleBytes).VerificationMaterial.Content.PublicKeyIdentifier
              = some pkid ∧
          ToLower runEmbedded.unicodeToLower (TrimSpace pkid.Hint)
              = EncodeToString (runEmbedded.sum256 wantDER).val)) :=
  ⟨by decide,
   sigverifyWithKey_ok_needs_engine_and_pin runEmbedded
     [Value.uint8Array [1], Value.string "pkey", Value.uint8Array [2]] (by decide)⟩

/-- C2: in a 3-argument call where the key normalizes to `wantDER`, the verifier
is built, the bundle decodes, the engine succeeds and the bundle carries a
non-empty embedded key content, the result is `{ok:true}` exactly when that
content base64-decodes to `wantDER`; and `wantDER` is the PKIX marshalling of
the parsed key, whichever input form matched. -/
theorem sigverifyWithKey_embedded_iff (E : Env) (artifact : List Byte) (a1 : Value)
    (bundleBytes wantDER : List Byte) (key : E.PublicKey) (verifier : E.Verifier)
    (entity : E.Bundle) (res : E.VerificationResult) (pk : publicKeyContent)
    (hk : spkiDERFromPEM E (stringToBytes a1.String) = .ok (wantDER, key))
    (hv : newVerifier E false = .ok verifier)
    (he : decodeBundle E bundleBytes = .ok entity)
    (hr : E.verify verifier entity
      (NewPolicy (ArtifactPolicyOption.withArtifact artifact) PolicyOption.withKey)
      = .ok res)
    (hP : (E.jsonUnmarshalRawBundle bundleBytes).VerificationMaterial.Content.PublicKey
      = some pk)
    (hc : pk.Content ≠ "") :
    (sigverifyWithKey E [Value.uint8Array artifact, a1, Value.uint8Array bundleBytes]
        = some okTrue ↔ E.base64DecodeString pk.Content = .ok wantDER) ∧
      E.marshalPKIXPublicKey key = .ok wantDER := by
  refine ⟨?_, spkiDERFromPEM_ok_marshal E _ _ _ hk⟩
  rw [sigverifyWithKey_after_engine E artifact a1 bundleBytes wantDER key verifier entity res
    hk hv he hr, filter_embedded _ pk hP hc]
  cases hg : E.base64DecodeString pk.Content with
  | error err => simp [hg, okFalse, okTrue]
  | ok gotDER =>
    by_cases heq : gotDER = wantDER
    · simp [hg, heq]
    · simp [hg, heq, okFalse, okTrue]

/-- C2, at a concrete run: the embedded content `cGtleQ==` decodes to the
caller's key `pkey`, and the call succeeds. -/
theorem sigverifyWithKey_embedded_iff_witness :
    (sigverifyWithKey runEmbedded
        [Value.uint8Array [1], Value.string "pkey", Value.uint8Array [2]] = some okTrue ↔
      runEmbedded.base64DecodeString "cGtleQ==" = .ok [112, 107, 101, 121]) ∧
    runEmbedded.marshalPKIXPublicKey
        (show List Byte from [112, 107, 101, 121]) = .ok [112, 107, 101, 121] :=
  sigverifyWithKey_embedded_iff runEmbedded
    [1] (Value.string "pkey") [2] [112, 107, 101, 121]
    (show List Byte from [112, 107, 101, 121])
    (show List VerifierOption from
      [VerifierOption.withTransparencyLog 1, VerifierOption.withIntegratedTimestamps 1])
    (show List Byte from [2]) () { Content := "cGtleQ==" } rfl rfl rfl rfl rfl (by decide)

/-- C3 as stated fails: with a hint that is the fingerprint preceded by a space
the call succeeds, although the lower-cased hint, taken exactly as it appears in
the bundle, differs from the lower-cased fingerprint. -/
theorem sigverifyWithKey_untrimmed_hint_counterexample :
    EngineAccepts runPaddedHint [1] (Value.string "pkey") [2] [112, 107, 101, 121] ∧
    (runPaddedHint.jsonUnmarshalRawBundle [2]).VerificationMaterial.Content.PublicKey = none ∧
    (runPaddedHint.jsonUnmarshalRawBundle [2]).VerificationMaterial.Content.PublicKeyIdentifier
      = some { Hint := " 5454ed612eb5964e86e93eda6c1f5039bdaae7e04e2b935ef0d1c45910ab3e1a" } ∧
    sigverifyWithKey runPaddedHint
      [Value.uint8Array [1], Value.string "pkey", Value.uint8Array [2]] = some okTrue ∧
    ToLower runPaddedHint.unicodeToLower
        " 5454ed612eb5964e86e93eda6c1f5039bdaae7e04e2b935ef0d1c45910ab3e1a" ≠
      ToLower runPaddedHint.unicodeToLower
        (EncodeToString (runPaddedHint.sum256 [112, 107, 101, 121]).val) :=
  ⟨⟨(show List Byte from [112, 107, 101, 121]),
     (show List VerifierOption from
       [VerifierOption.withTransparencyLog 1, VerifierOption.withIntegratedTimestamps 1]),
     (show List Byte from [2]), (), rfl, rfl, rfl, rfl⟩,
   rfl, rfl, by decide, by decide⟩

/-- C3, amended: in a 3-argument call where every step up to the engine succeeds
and the bundle carries only a hint (a `publicKeyIdentifier` and no non-empty
embedded key), the result is `{ok:true}` exactly when the lower-cased, trimmed
hint equals the lower-cased hex SHA-256 of `wantDER`. -/
theorem sigverifyWithKey_hint_iff (E : Env) (artifact : List Byte) (a1 : Value)
    (bundleBytes wantDER : List Byte) (pkid : publicKeyIdentifier)
    (hacc : EngineAccepts E artifact a1 bundleBytes wantDER)
    (hno : NoEmbeddedKey (E.jsonUnmarshalRawBundle bundleBytes))
    (hid : (E.jsonUnmarshalRawBundle bundleBytes).VerificationMaterial.Content.PublicKeyIdentifier
      = some pkid) :
    sigverifyWithKey E [Value.uint8Array artifact, a1, Value.uint8Array bundleBytes]
        = some okTrue ↔
      ToLower E.unicodeToLower (TrimSpace pkid.Hint) =
        ToLower E.unicodeToLower (EncodeToString (E.sum256 wantDER).val) := by
  rw [sigverifyWithKey_of_accepts E artifact a1 bundleBytes wantDER hacc,
    filter_no_embedded _ hno]
  simp only [hid]
  by_cases heq : ToLower E.unicodeToLower (TrimSpace pkid.Hint) =
      ToLower E.unicodeToLower (EncodeToString (E.sum256 wantDER).val)
  · simp [heq]
  · simp [heq, okFalse, okTrue]

/-- C3, amended, at the padded hint: the trimmed hint matches and the call
succeeds. -/
theorem sigverifyWithKey_hint_iff_witness :
    sigverifyWithKey runPaddedHint
        [Value.uint8Array [1], Value.string "pkey", Value.uint8Array [2]] = some okTrue ↔
      ToLower runPaddedHint.unicodeToLower
          (TrimSpace " 5454ed612eb5964e86e93eda6c1f5039bdaae7e04e2b935ef0d1c45910ab3e1a") =
        ToLower runPaddedHint.unicodeToLower
          (EncodeToString (runPaddedHint.sum256 [112, 107, 101, 121]).val) :=
  sigverifyWithKey_hint_iff runPaddedHint [1] (Value.string "pkey") [2] [112, 107, 101, 121]
    { Hint := " 5454ed612eb5964e86e93eda6c1f5039bdaae7e04e2b935ef0d1c45910ab3e1a" }
    ⟨(show List Byte from [112, 107, 101, 121]),
     (show List VerifierOption from
       [VerifierOption.withTransparencyLog 1, VerifierOption.withIntegratedTimestamps 1]),
     (show List Byte from [2]), (), rfl, rfl, rfl, rfl⟩
    (Or.inl rfl) rfl

/-- C4: a key-mode call whose bundle carries neither a non-empty embedded key nor
a `publicKeyIdentifier` never returns `{ok:true}`, whatever the collaborators
(the engine included) answer; and when every step up to the engine succeeds the
result is exactly `{ok:false, error:"bundle has no public key material to pin"}`. -/
theorem sigverifyWithKey_no_material (E : Env) (bundleBytes : List Byte)
    (hno : NoEmbeddedKey (E.jsonUnmarshalRawBundle bundleBytes))
    (hid : (E.jsonUnmarshalRawBundle bundleBytes).VerificationMaterial.Content.PublicKeyIdentifier
      = none) :
    (∀ a0 a1 : Value,
      sigverifyWithKey E [a0, a1, Value.uint8Array bundleBytes] ≠ some okTrue) ∧
    (∀ (artifact : List Byte) (a1 : Value) (wantDER : List Byte),
      EngineAccepts E artifact a1 bundleBytes wantDER →
      sigverifyWithKey E [Value.uint8Array artifact, a1, Value.uint8Array bundleBytes]
        = some (okFalse "bundle has no public key material to pin")) := by
  constructor
  · intro a0 a1 h
    obtain ⟨artifact, b1, bundleBytes2, wantDER, key, verifier, entity, res, hargs, -, -, -, -,
      hpin⟩ := sigverifyWithKey_ok_inv E _ h
    simp only [List.cons.injEq, Arg.typed.injEq, Value.uint8Array.injEq, and_true] at hargs
    obtain ⟨-, -, hb⟩ := hargs
    subst hb
    rcases hpin with ⟨pk, hP, hc, -⟩ | ⟨-, pkid, hpk, -⟩
    · rcases hno with hn | ⟨pk2, hP2, hc2⟩
      · rw [hn] at hP; cases hP
      · rw [hP2] at hP
        cases hP
        exact hc hc2
    · rw [hid] at hpk; cases hpk
  · intro artifact a1 wantDER hacc
    rw [sigverifyWithKey_of_accepts E artifact a1 bundleBytes wantDER hacc,
      filter_no_embedded _ hno]
    simp only [hid]

/-- C4, at a concrete run: an empty `publicKey` object, no hint, engine accepts. -/
theorem sigverifyWithKey_no_material_witness :
    sigverifyWithKey runNoMaterial
        [Value.uint8Array [1], Value.string "pkey", Value.uint8Array [2]] ≠ some okTrue ∧
    sigverifyWithKey runNoMaterial
        [Value.uint8Array [1], Value.string "pkey", Value.uint8Array [2]]
      = some (okFalse "bundle has no public key material to pin") :=
  ⟨(sigverifyWithKey_no_material runNoMaterial [2]
      (Or.inr ⟨{ Content := "" }, rfl, rfl⟩) rfl).1 (Value.uint8Array [1]) (Value.string "pkey"),
   (sigverifyWithKey_no_material runNoMaterial [2]
      (Or.inr ⟨{ Content := "" }, rfl, rfl⟩) rfl).2 [1] (Value.string "pkey")
      [112, 107, 101, 121]
      ⟨(show List Byte from [112, 107, 101, 121]),
       (show List VerifierOption from
         [VerifierOption.withTransparencyLog 1, VerifierOption.withIntegratedTimestamps 1]),
       (show List Byte from [2]), (), rfl, rfl, rfl, rfl⟩⟩

/-- C5: when every step up to the engine succeeds and the non-empty embedded key
content decodes to bytes different from `wantDER` (in any way, length included),
the result is the key-mismatch failure; hence of two accepted bundles embedding
different keys, with the caller's key equal to the first one, the first call
succeeds and the second fails with the key-mismatch error. -/
theorem sigverifyWithKey_key_mismatch (E : Env) (artifact : List Byte) (a1 : Value)
    (wantDER : List Byte) :
    (∀ (bundleBytes : List Byte) (pk : publicKeyContent) (gotDER : List Byte),
      EngineAccepts E artifact a1 bundleBytes wantDER →
      (E.jsonUnmarshalRawBundle bundleBytes).VerificationMaterial.Content.PublicKey = some pk →
      pk.Content ≠ "" →
      E.base64DecodeString pk.Content = .ok gotDER →
      gotDER ≠ wantDER →
      sigverifyWithKey E [Value.uint8Array artifact, a1, Value.uint8Array bundleBytes]
        = some (okFalse "public key mismatch: bundle key != expected key")) ∧
    (∀ (bundle1 bundle2 : List Byte) (pk1 pk2 : publicKeyContent) (der1 der2 : List Byte),
      EngineAccepts E artifact a1 bundle1 wantDER →
      EngineAccepts E artifact a1 bundle2 wantDER →
      (E.jsonUnmarshalRawBundle bundle1).VerificationMaterial.Content.PublicKey = some pk1 →
      (E.jsonUnmarshalRawBundle bundle2).VerificationMaterial.Content.PublicKey = some pk2 →
      pk1.Content ≠ "" → pk2.Content ≠ "" →
      E.base64DecodeString pk1.Content = .ok der1 →
      E.base64DecodeString pk2.Content = .ok der2 →
      der1 ≠ der2 → wantDER = der1 →
      sigverifyWithKey E [Value.uint8Array artifact, a1, Value.uint8Array bundle1]
        = some okTrue ∧
      sigverifyWithKey E [Value.uint8Array artifact, a1, Value.uint8Array bundle2]
        = some (okFalse "public key mismatch: bundle key != expected key")) := by
  have key : ∀ (bundleBytes : List Byte) (pk : publicKeyContent) (gotDER : List Byte),
      EngineAccepts E artifact a1 bundleBytes wantDER →
      (E.jsonUnmarshalRawBundle bundleBytes).VerificationMaterial.Content.PublicKey = some pk →
      pk.Content ≠ "" →
      E.base64DecodeString pk.Content = .ok gotDER →
      sigverifyWithKey E [Value.uint8Array artifact, a1, Value.uint8Array bundleBytes]
        = if ¬ gotDER = wantDER then
            some (okFalse "public key mismatch: bundle key != expected key")
          else some okTrue := by
    intro bundleBytes pk gotDER hacc hP hc hg
    rw [sigverifyWithKey_of_accepts E artifact a1 bundleBytes wantDER hacc,
      filter_embedded _ pk hP hc]
    simp only [hg]
  constructor
  · intro bundleBytes pk gotDER hacc hP hc hg hne
    rw [key bundleBytes pk gotDER hacc hP hc hg, if_pos hne]
  · intro bundle1 bundle2 pk1 pk2 der1 der2 hacc1 hacc2 hP1 hP2 hc1 hc2 hg1 hg2 hne hw
    subst hw
    constructor
    · rw [key bundle1 pk1 wantDER hacc1 hP1 hc1 hg1]
      simp
    · rw [key bundle2 pk2 der2 hacc2 hP2 hc2 hg2, if_pos (Ne.symm hne)]

/-- C5, at a concrete run: the caller's key is `pkey`; bundle `[2]` embeds `pkey`
and passes, bundle `[3]` embeds `pkez` and fails with the key-mismatch error. -/
theorem sigverifyWithKey_key_mismatch_witness :
    sigverifyWithKey runTwoBundles
        [Value.uint8Array [1], Value.string "pkey", Value.uint8Array [2]] = some okTrue ∧
    sigverifyWithKey runTwoBundles
        [Value.uint8Array [1], Value.string "pkey", Value.uint8Array [3]]
      = some (okFalse "public key mismatch: bundle key != expected key") :=
  (sigverifyWithKey_key_mismatch runTwoBundles [1] (Value.string "pkey")
      [112, 107, 101, 121]).2 [2] [3] { Content := "cGtleQ==" } { Content := "cGtleg==" }
    [112, 107, 101, 121] [112, 107, 101, 122]
    ⟨(show List Byte from [112, 107, 101, 121]),
     (show List VerifierOption from
       [VerifierOption.withTransparencyLog 1, VerifierOption.withIntegratedTimestamps 1]),
     (show List Byte from [2]), (), rfl, rfl, rfl, rfl⟩
    ⟨(show List Byte from [112, 107, 101, 121]),
     (show List VerifierOption from
       [VerifierOption.withTransparencyLog 1, VerifierOption.withIntegratedTimestamps 1]),
     (show List Byte from [3]), (), rfl, rfl, rfl, rfl⟩
    rfl rfl (by decide) (by decide) rfl rfl (by decide) rfl

/-- C6: in a 4-argument identity-mode call with non-empty issuer and subject in
which the verifier is built, the bundle decodes and the identity constraint is
constructed, the result is `{ok:true}` exactly when the engine's `Verify`
returns no error; and the result is the same whatever the raw key material of
the bundle, the base64 decoder and the digest are (no pinning step is run). -/
theorem sigverifyWithID_ok_iff (E : Env) (artifact : List Byte) (a1 a2 : Value)
    (bundleBytes : List Byte) (verifier : E.Verifier) (entity : E.Bundle)
    (cid : E.CertificateIdentity)
    (hi : a1.String ≠ "") (hs : a2.String ≠ "")
    (hv : newVerifier E true = .ok verifier)
    (he : decodeBundle E bundleBytes = .ok entity)
    (hc : E.newShortCertificateIdentity a1.String "" a2.String "" = .ok cid) :
    (sigverifyWithID E
        [Value.uint8Array artifact, a1, a2, Value.uint8Array bundleBytes] = some okTrue ↔
      ∃ res, E.verify verifier entity
        (NewPolicy (ArtifactPolicyOption.withArtifact artifact)
          (PolicyOption.withCertificateIdentity cid)) = .ok res) ∧
    (∀ (raw : List Byte → rawBundle) (b64 : String → Except String (List Byte))
        (sum : List Byte → { d : List Byte // d.length = 32 }),
      sigverifyWithID
          { E with jsonUnmarshalRawBundle := raw, base64DecodeString := b64, sum256 := sum }
          [Value.uint8Array artifact, a1, a2, Value.uint8Array bundleBytes] =
        sigverifyWithID E
          [Value.uint8Array artifact, a1, a2, Value.uint8Array bundleBytes]) := by
  constructor
  · simp only [sigverifyWithID, CopyBytesToGo, Arg.String, hi, hs, or_self, if_false, hv, he, hc]
    cases hr : E.verify verifier entity
        (NewPolicy (ArtifactPolicyOption.withArtifact artifact)
          (PolicyOption.withCertificateIdentity cid)) with
    | error err => simp [okFalse, okTrue]
    | ok res => simp
  · intro raw b64 sum
    exact sigverifyWithID_ignores_key_material E raw b64 sum _

/-- C6, at a concrete run the engine accepts. -/
theorem sigverifyWithID_ok_iff_witness :
    sigverifyWithID runEmbedded
        [Value.uint8Array [1], Value.string "https://issuer.example",
         Value.string "dev@example.com", Value.uint8Array [2]] = some okTrue ↔
      ∃ res, runEmbedded.verify
        (show List VerifierOption from
          [VerifierOption.withSignedCertificateTimestamps 1,
           VerifierOption.withTransparencyLog 1, VerifierOption.withIntegratedTimestamps 1])
        (show List Byte from [2])
        (NewPolicy (ArtifactPolicyOption.withArtifact [1])
          (PolicyOption.withCertificateIdentity
            (show String × String × String × String from
              ("https://issuer.example", "", "dev@example.com", "")))) = .ok res :=
  (sigverifyWithID_ok_iff runEmbedded [1] (Value.string "https://issuer.example")
    (Value.string "dev@example.com") [2]
    (show List VerifierOption from
      [VerifierOption.withSignedCertificateTimestamps 1,
       VerifierOption.withTransparencyLog 1, VerifierOption.withIntegratedTimestamps 1])
    (show List Byte from [2])
    (show String × String × String × String from
      ("https://issuer.example", "", "dev@example.com", ""))
    (by decide) (by decide) rfl rfl rfl).1

/-- C7: a 4-argument identity-mode call whose issuer or subject is the empty
string returns `{ok:false, error:"issuer and subject are required"}`, whatever
the artifact, the bundle bytes, the trusted root and every collaborator. -/
theorem sigverifyWithID_missing_identity (E : Env) (artifact : List Byte) (a1 a2 : Value)
    (bundleBytes : List Byte) (h : a1.String = "" ∨ a2.String = "") :
    sigverifyWithID E [Value.uint8Array artifact, a1, a2, Value.uint8Array bundleBytes]
      = some (okFalse "issuer and subject are required") := by
  simp only [sigverifyWithID, CopyBytesToGo, Arg.String, h, if_true]

/-- C7, at a concrete call with an empty subject. -/
theorem sigverifyWithID_missing_identity_witness :
    sigverifyWithID runEmbedded
        [Value.uint8Array [1], Value.string "https://issuer.example", Value.string "",
         Value.uint8Array [2]]
      = some (okFalse "issuer and subject are required") :=
  sigverifyWithID_missing_identity runEmbedded [1] (Value.string "https://issuer.example")
    (Value.string "") [2] (Or.inr rfl)

/-- C8 as stated fails: when the engine rejects with an error whose message is
empty, `sigverifyWithID` returns `ok=false` with an empty `error` string. -/
theorem sigverifyWithID_empty_error_counterexample :
    sigverifyWithID runEmptyEngineError
        [Value.uint8Array [1], Value.string "https://issuer.example",
         Value.string "dev@example.com", Value.uint8Array [2]]
      = some [("ok", Any.bool false), ("error", Any.string "")] ∧
    ¬ WellShaped [("ok", Any.bool false), ("error", Any.string "")] := by
  refine ⟨by decide, ?_⟩
  rintro (h | ⟨msg, hmsg, h⟩)
  · simp at h
  · simp only [List.cons.injEq, Prod.mk.injEq, Any.string.injEq, true_and, and_true] at h
    exact hmsg h.symm

/-- C8, amended: for every call of `sigverifyWithKey` or `sigverifyWithID`, with
any number of arguments of any kind and any answers of the collaborators, the
returned result is `ok=true` with no `error` entry or `ok=false` with an
`error` entry that is a string; the string is non-empty, except that
`sigverifyWithID` passes an engine error with an empty message through
verbatim. -/
theorem results_wellShaped (E : Env) (args : List Arg) :
    (∀ r, sigverifyWithKey E args = some r → WellShaped r) ∧
    (∀ r, sigverifyWithID E args = some r →
      WellShaped r ∨
        (r = [("ok", Any.bool false), ("error", Any.string "")] ∧
          ∃ (artifact : List Byte) (a1 a2 : Value) (bundleBytes : List Byte)
            (verifier : E.Verifier) (entity : E.Bundle) (cid : E.CertificateIdentity),
            args = ([Value.uint8Array artifact, a1, a2, Value.uint8Array bundleBytes] :
              List Arg) ∧
            newVerifier E true = .ok verifier ∧
            decodeBundle E bundleBytes = .ok entity ∧
            E.newShortCertificateIdentity a1.String "" a2.String "" = .ok cid ∧
            E.verify verifier entity
              (NewPolicy (ArtifactPolicyOption.withArtifact artifact)
                (PolicyOption.withCertificateIdentity cid)) = .error "")) := by
  refine ⟨?_, ?_⟩
  · intro r h
    rcases args with _ | ⟨a0, _ | ⟨a1, _ | ⟨a2, _ | ⟨a3, rest⟩⟩⟩⟩
    case cons.cons.cons.nil =>
      unfold sigverifyWithKey at h
      simp only at h
      split at h
      · simp at h
      split at h
      · simp at h
      split at h
      · simp at h
      split at h
      · simp only [Option.some.injEq] at h
        subst h
        exact wellShaped_okFalse _ (append_ne_empty _ _ (by decide))
      repeat' split at h
      all_goals
        simp only [Option.some.injEq] at h
        subst h
        first
          | exact Or.inl rfl
          | exact wellShaped_okFalse _ (append_ne_empty _ _ (by decide))
          | exact wellShaped_okFalse _ (by decide)
    all_goals
      simp only [sigverifyWithKey, Option.some.injEq] at h
      subst h
      exact wellShaped_okFalse _ (by decide)
  · intro r h
    rcases args with _ | ⟨a0, _ | ⟨a1, _ | ⟨a2, _ | ⟨a3, _ | ⟨a4, rest⟩⟩⟩⟩⟩
    case cons.cons.cons.cons.nil =>
      unfold sigverifyWithID at h
      simp only at h
      split at h
      · simp at h
      rename_i artifact h0
      split at h
      · simp at h
      rename_i issuer h1
      split at h
      · simp at h
      rename_i subject h2
      split at h
      · simp at h
      rename_i bundleBytes h3
      rw [CopyBytesToGo_eq_some] at h0 h3
      obtain ⟨v1, h1, hs1⟩ := (Arg_String_eq_some _ _).mp h1
      obtain ⟨v2, h2, hs2⟩ := (Arg_String_eq_some _ _).mp h2
      subst h0 h1 h2 h3 hs1 hs2
      split at h
      · simp only [Option.some.injEq] at h
        subst h
        exact Or.inl (wellShaped_okFalse _ (by decide))
      split at h
      · simp only [Option.some.injEq] at h
        subst h
        exact Or.inl (wellShaped_okFalse _ (append_ne_empty _ _ (by decide)))
      rename_i verifier hv
      split at h
      · simp only [Option.some.injEq] at h
        subst h
        exact Or.inl (wellShaped_okFalse _ (append_ne_empty _ _ (by decide)))
      rename_i entity he
      split at h
      · simp only [Option.some.injEq] at h
        subst h
        exact Or.inl (wellShaped_okFalse _ (append_ne_empty _ _ (by decide)))
      rename_i cid hc
      split at h
      · rename_i err hr
        simp only [Option.some.injEq] at h
        subst h
        by_cases herr : err = ""
        · subst herr
          exact Or.inr ⟨rfl, artifact, v1, v2, bundleBytes, verifier, entity, cid, rfl, hv, he,
            hc, hr⟩
        · exact Or.inl (wellShaped_okFalse _ herr)
      · simp only [Option.some.injEq] at h
        subst h
        exact Or.inl (Or.inl rfl)
    all_goals
      simp only [sigverifyWithID, Option.some.injEq] at h
      subst h
      exact Or.inl (wellShaped_okFalse _ (by decide))

/-- C8, amended, at concrete calls: the successful key-mode result and the
usage failure of a one-argument call holding a BigInt are well shaped, and the
identity-mode result with the empty engine message is the stated exception. -/
theorem results_wellShaped_witness :
    WellShaped [("ok", Any.bool true)] ∧
    WellShaped
      [("ok", Any.bool false),
       ("error", Any.string
          "usage: sigverifyWithID(artifactBytes, issuer, subject, bundleJSON)")] ∧
    (WellShaped [("ok", Any.bool false), ("error", Any.string "")] ∨
      ([("ok", Any.bool false), ("error", Any.string "")]
          = [("ok", Any.bool false), ("error", Any.string "")] ∧
        ∃ (artifact : List Byte) (a1 a2 : Value) (bundleBytes : List Byte)
          (verifier : runEmptyEngineError.Verifier) (entity : runEmptyEngineError.Bundle)
          (cid : runEmptyEngineError.CertificateIdentity),
          ([Value.uint8Array [1], Value.string "https://issuer.example",
            Value.string "dev@example.com", Value.uint8Array [2]] : List Arg)
            = [Value.uint8Array artifact, a1, a2, Value.uint8Array bundleBytes] ∧
          newVerifier runEmptyEngineError true = .ok verifier ∧
          decodeBundle runEmptyEngineError bundleBytes = .ok entity ∧
          runEmptyEngineError.newShortCertificateIdentity a1.String "" a2.String ""
            = .ok cid ∧
          runEmptyEngineError.verify verifier entity
            (NewPolicy (ArtifactPolicyOption.withArtifact artifact)
              (PolicyOption.withCertificateIdentity cid)) = .error "")) :=
  ⟨(results_wellShaped runEmbedded
      [Value.uint8Array [1], Value.string "pkey", Value.uint8Array [2]]).1 _ (by decide),
   Or.elim
     ((results_wellShaped runEmbedded [Arg.bigint "10"]).2 _
       (show sigverifyWithID runEmbedded [Arg.bigint "10"] = some _ from rfl))
     id (fun hx => absurd hx.1 (by decide)),
   (results_wellShaped runEmptyEngineError
      [Value.uint8Array [1], Value.string "https://issuer.example",
       Value.string "dev@example.com", Value.uint8Array [2]]).2 _ (by decide)⟩

/-- C9: `newVerifier true` (identity mode) asks the engine for signed certificate
timestamps, transparency-log inclusion and integrated timestamps, each with
threshold 1; `newVerifier false` (key mode) asks for transparency-log inclusion
and integrated timestamps only, each with threshold 1; identity mode verifies
under the certificate identity built from (issuer, subject) with both regex
fields empty, and key mode verifies under the `WithKey` requirement. -/
theorem proofs_and_constraint_by_mode (E : Env) :
    (newVerifier E true =
      match E.newTrustedRootFromJSON E.trustedRootJSON with
      | .error err => .error err
      | .ok trustedRoot =>
        E.verifyNewVerifier trustedRoot
          [VerifierOption.withSignedCertificateTimestamps 1,
           VerifierOption.withTransparencyLog 1,
           VerifierOption.withIntegratedTimestamps 1]) ∧
    (newVerifier E false =
      match E.newTrustedRootFromJSON E.trustedRootJSON with
      | .error err => .error err
      | .ok trustedRoot =>
        E.verifyNewVerifier trustedRoot
          [VerifierOption.withTransparencyLog 1,
           VerifierOption.withIntegratedTimestamps 1]) ∧
    (∀ (artifact : List Byte) (a1 a2 : Value) (bundleBytes : List Byte)
        (verifier : E.Verifier) (entity : E.Bundle) (cid : E.CertificateIdentity),
      a1.String ≠ "" → a2.String ≠ "" →
      newVerifier E true = .ok verifier →
      decodeBundle E bundleBytes = .ok entity →
      E.newShortCertificateIdentity a1.String "" a2.String "" = .ok cid →
      sigverifyWithID E [Value.uint8Array artifact, a1, a2, Value.uint8Array bundleBytes] =
        match E.verify verifier entity
            { artifact := ArtifactPolicyOption.withArtifact artifact,
              option := PolicyOption.withCertificateIdentity cid } with
        | .error err => some (okFalse err)
        | .ok _ => some okTrue) ∧
    (∀ (artifact : List Byte) (a1 : Value) (bundleBytes wantDER : List Byte)
        (key : E.PublicKey) (verifier : E.Verifier) (entity : E.Bundle),
      spkiDERFromPEM E (stringToBytes a1.String) = .ok (wantDER, key) →
      newVerifier E false = .ok verifier →
      decodeBundle E bundleBytes = .ok entity →
      (∀ err, E.verify verifier entity
            { artifact := ArtifactPolicyOption.withArtifact artifact,
              option := PolicyOption.withKey } = .error err →
        sigverifyWithKey E [Value.uint8Array artifact, a1, Value.uint8Array bundleBytes]
          = some (okFalse ("verify: " ++ err))) ∧
      (sigverifyWithKey E [Value.uint8Array artifact, a1, Value.uint8Array bundleBytes]
          = some okTrue →
        ∃ res, E.verify verifier entity
            { artifact := ArtifactPolicyOption.withArtifact artifact,
              option := PolicyOption.withKey } = .ok res)) := by
  refine ⟨?_, ?_, ?_, ?_⟩
  · simp only [newVerifier, Bool.not_true, Bool.false_eq_true, if_false]
  · simp only [newVerifier, Bool.not_false, if_true]
  · intro artifact a1 a2 bundleBytes verifier entity cid hi hs hv he hc
    simp only [sigverifyWithID, CopyBytesToGo, Arg.String, hi, hs, or_self, if_false, hv, he, hc, NewPolicy]
  · intro artifact a1 bundleBytes wantDER key verifier entity hk hv he
    constructor
    · intro err hr
      simp only [sigverifyWithKey, CopyBytesToGo, Arg.String, hk, hv, he, NewPolicy, hr]
    · intro h
      cases hr : E.verify verifier entity
          { artifact := ArtifactPolicyOption.withArtifact artifact,
            option := PolicyOption.withKey } with
      | ok res => exact ⟨res, rfl⟩
      | error err =>
        simp only [sigverifyWithKey, CopyBytesToGo, Arg.String, hk, hv, he, NewPolicy, hr] at h
        exact absurd (Option.some.inj h) (okFalse_ne_okTrue _)

/-- C9, at concrete runs: identity mode reaches the engine with the identity
`(issuer, "", subject, "")`, and key mode prefixes the engine's error. -/
theorem proofs_and_constraint_by_mode_witness :
    sigverifyWithID runEmptyEngineError
        [Value.uint8Array [1], Value.string "https://issuer.example",
         Value.string "dev@example.com", Value.uint8Array [2]] =
      (match runEmptyEngineError.verify
          (show List VerifierOption from
            [VerifierOption.withSignedCertificateTimestamps 1,
             VerifierOption.withTransparencyLog 1, VerifierOption.withIntegratedTimestamps 1])
          (show List Byte from [2])
          { artifact := ArtifactPolicyOption.withArtifact [1],
            option := PolicyOption.withCertificateIdentity
              (show String × String × String × String from
                ("https://issuer.example", "", "dev@example.com", "")) } with
        | .error err => some (okFalse err)
        | .ok _ => some okTrue) ∧
    sigverifyWithKey runEmptyEngineError
        [Value.uint8Array [1], Value.string "pkey", Value.uint8Array [2]]
      = some (okFalse ("verify: " ++ "")) :=
  ⟨(proofs_and_constraint_by_mode runEmptyEngineError).2.2.1 [1]
      (Value.string "https://issuer.example") (Value.string "dev@example.com") [2]
      (show List VerifierOption from
        [VerifierOption.withSignedCertificateTimestamps 1,
         VerifierOption.withTransparencyLog 1, VerifierOption.withIntegratedTimestamps 1])
      (show List Byte from [2])
      (show String × String × String × String from
        ("https://issuer.example", "", "dev@example.com", ""))
      (by decide) (by decide) rfl rfl rfl,
   ((proofs_and_constraint_by_mode runEmptyEngineError).2.2.2 [1] (Value.string "pkey") [2]
      [112, 107, 101, 121] (show List Byte from [112, 107, 101, 121])
      (show List VerifierOption from
        [VerifierOption.withTransparencyLog 1, VerifierOption.withIntegratedTimestamps 1])
      (show List Byte from [2]) rfl rfl rfl).1 "" rfl⟩

/-- C10: with first PEM block `block`, `spkiDERFromPEM` tries PKIX, then PKCS#1,
then certificate, and returns the PKIX marshalling of the key of the first
format that parses (or that marshalling's error): PKIX wins whatever the other
two parsers would answer; PKCS#1 is used only when PKIX fails; the certificate
key only when both fail and the key is non-nil. Every DER returned is the
marshaller's output for the returned key. -/
theorem spkiDERFromPEM_priority (E : Env) (pemBytes : List Byte) (block : Block)
    (rest : List Byte) (hb : E.pemDecode pemBytes = some (block, rest)) :
    (∀ pk, E.parsePKIXPublicKey block.bytes = .ok pk →
      spkiDERFromPEM E pemBytes =
        match E.marshalPKIXPublicKey pk with
        | .error err2 => .error err2
        | .ok der => .ok (der, pk)) ∧
    (∀ err1 rsaPK, E.parsePKIXPublicKey block.bytes = .error err1 →
      E.parsePKCS1PublicKey block.bytes = .ok rsaPK →
      spkiDERFromPEM E pemBytes =
        match E.marshalPKIXPublicKey (E.rsaPublicKey rsaPK) with
        | .error err2 => .error err2
        | .ok der => .ok (der, E.rsaPublicKey rsaPK)) ∧
    (∀ err1 err2 cert certPK, E.parsePKIXPublicKey block.bytes = .error err1 →
      E.parsePKCS1PublicKey block.bytes = .error err2 →
      E.parseCertificate block.bytes = .ok cert →
      E.certPublicKey cert = some certPK →
      spkiDERFromPEM E pemBytes =
        match E.marshalPKIXPublicKey certPK with
        | .error err2 => .error err2
        | .ok der => .ok (der, certPK)) ∧
    (∀ der key, spkiDERFromPEM E pemBytes = .ok (der, key) →
      E.marshalPKIXPublicKey key = .ok der) := by
  refine ⟨?_, ?_, ?_, ?_⟩
  · intro pk h1
    simp only [spkiDERFromPEM, hb, h1]
  · intro err1 rsaPK h1 h2
    simp only [spkiDERFromPEM, hb, h1, h2]
  · intro err1 err2 cert certPK h1 h2 h3 h4
    simp only [spkiDERFromPEM, hb, h1, h2, h3, h4]
  · intro der key h
    exact spkiDERFromPEM_ok_marshal E pemBytes der key h

/-- C10, at concrete inputs: a PKIX key, a PKCS#1 key and a certificate each
normalize to the marshalling of their key. -/
theorem spkiDERFromPEM_priority_witness :
    spkiDERFromPEM runEmbedded [112, 107, 101, 121]
      = .ok ([112, 107, 101, 121], (show List Byte from [112, 107, 101, 121])) ∧
    spkiDERFromPEM runEmbedded [114, 107, 101, 121]
      = .ok ([114, 107, 101, 121], (show List Byte from [114, 107, 101, 121])) ∧
    spkiDERFromPEM runEmbedded [99, 107, 101, 121]
      = .ok ([99, 107, 101, 121], (show List Byte from [99, 107, 101, 121])) :=
  ⟨(spkiDERFromPEM_priority runEmbedded [112, 107, 101, 121]
      { type := "PUBLIC KEY", headers := [], bytes := [112, 107, 101, 121] } [] rfl).1
      (show List Byte from [112, 107, 101, 121]) rfl,
   (spkiDERFromPEM_priority runEmbedded [114, 107, 101, 121]
      { type := "RSA PUBLIC KEY", headers := [], bytes := [114, 107, 101, 121] } [] rfl).2.1
      "x509: failed to parse public key" (show List Byte from [114, 107, 101, 121]) rfl rfl,
   (spkiDERFromPEM_priority runEmbedded [99, 107, 101, 121]
      { type := "CERTIFICATE", headers := [], bytes := [99, 107, 101, 121] } [] rfl).2.2.1
      "x509: failed to parse public key" "x509: failed to parse public key"
      (show List Byte from [99, 107, 101, 121]) (show List Byte from [99, 107, 101, 121])
      rfl rfl rfl rfl⟩

/-- C11: `spkiDERFromPEM` fails with `no PEM block found` when no block can be
decoded, and with `unsupported PEM type` when the first block fails the PKIX,
PKCS#1 and certificate parses (a certificate without a key counting as a failed
parse); an error result carries neither DER nor key. Conversely, when the format
the function settles on parses and the marshalling of its key succeeds, the
DER and the key are returned without error. -/
theorem spkiDERFromPEM_errors (E : Env) (pemBytes : List Byte) :
    (E.pemDecode pemBytes = none →
      spkiDERFromPEM E pemBytes = .error "no PEM block found") ∧
    (∀ (block : Block) (rest : List Byte) (err1 err2 : String),
      E.pemDecode pemBytes = some (block, rest) →
      E.parsePKIXPublicKey block.bytes = .error err1 →
      E.parsePKCS1PublicKey block.bytes = .error err2 →
      ((∃ err3, E.parseCertificate block.bytes = .error err3) ∨
        ∃ cert, E.parseCertificate block.bytes = .ok cert ∧ E.certPublicKey cert = none) →
      spkiDERFromPEM E pemBytes = .error "unsupported PEM type") ∧
    (∀ (block : Block) (rest der : List Byte) (key : E.PublicKey),
      E.pemDecode pemBytes = some (block, rest) →
      E.marshalPKIXPublicKey key = .ok der →
      (E.parsePKIXPublicKey block.bytes = .ok key ∨
        (∃ err1 rsaPK, E.parsePKIXPublicKey block.bytes = .error err1 ∧
          E.parsePKCS1PublicKey block.bytes = .ok rsaPK ∧ key = E.rsaPublicKey rsaPK) ∨
        (∃ err1 err2 cert, E.parsePKIXPublicKey block.bytes = .error err1 ∧
          E.parsePKCS1PublicKey block.bytes = .error err2 ∧
          E.parseCertificate block.bytes = .ok cert ∧ E.certPublicKey cert = some key)) →
      spkiDERFromPEM E pemBytes = .ok (der, key)) := by
  refine ⟨?_, ?_, ?_⟩
  · intro h
    simp only [spkiDERFromPEM, h]
  · intro block rest err1 err2 hb h1 h2 h3
    rcases h3 with ⟨err3, h3⟩ | ⟨cert, h3, h4⟩
    · simp only [spkiDERFromPEM, hb, h1, h2, h3]
    · simp only [spkiDERFromPEM, hb, h1, h2, h3, h4]
  · intro block rest der key hb hm hparse
    rcases hparse with h1 | ⟨err1, rsaPK, h1, h2, rfl⟩ | ⟨err1, err2, cert, h1, h2, h3, h4⟩
    · simp only [spkiDERFromPEM, hb, h1, hm]
    · simp only [spkiDERFromPEM, hb, h1, h2, hm]
    · simp only [spkiDERFromPEM, hb, h1, h2, h3, h4, hm]

/-- C11, at concrete inputs: an empty input has no block; the text `xkey` fails
all three parses; the text `nkey` is a certificate without a key; the text
`rkey` is a PKCS#1 key and normalizes. -/
theorem spkiDERFromPEM_errors_witness :
    spkiDERFromPEM runEmbedded [] = .error "no PEM block found" ∧
    spkiDERFromPEM runEmbedded [120, 107, 101, 121] = .error "unsupported PEM type" ∧
    spkiDERFromPEM runEmbedded [110, 107, 101, 121] = .error "unsupported PEM type" ∧
    spkiDERFromPEM runEmbedded [114, 107, 101, 121]
      = .ok ([114, 107, 101, 121], (show List Byte from [114, 107, 101, 121])) :=
  ⟨(spkiDERFromPEM_errors runEmbedded []).1 rfl,
   (spkiDERFromPEM_errors runEmbedded [120, 107, 101, 121]).2.1
      { type := "PUBLIC KEY", headers := [], bytes := [120, 107, 101, 121] } []
      "x509: failed to parse public key" "x509: failed to parse public key" rfl rfl rfl
      (Or.inl ⟨"x509: malformed certificate", rfl⟩),
   (spkiDERFromPEM_errors runEmbedded [110, 107, 101, 121]).2.1
      { type := "CERTIFICATE", headers := [], bytes := [110, 107, 101, 121] } []
      "x509: failed to parse public key" "x509: failed to parse public key" rfl rfl rfl
      (Or.inr ⟨(show List Byte from [110, 107, 101, 121]), rfl, rfl⟩),
   (spkiDERFromPEM_errors runEmbedded [114, 107, 101, 121]).2.2
      { type := "RSA PUBLIC KEY", headers := [], bytes := [114, 107, 101, 121] } []
      [114, 107, 101, 121] (show List Byte from [114, 107, 101, 121]) rfl rfl
      (Or.inr (Or.inl ⟨"x509: failed to parse public key",
        (show List Byte from [114, 107, 101, 121]), rfl, rfl, rfl⟩))⟩

/-- C12 as stated fails: the input made of the line `pkey` followed by the line
`pkez` has a first block with a non-empty remainder, and `spkiDERFromPEM`
returns the key of the first block instead of an error. -/
theorem spkiDERFromPEM_trailing_block_counterexample :
    runTrailingBlock.pemDecode [112, 107, 101, 121, 10, 112, 107, 101, 122]
      = some ({ type := "PUBLIC KEY", headers := [], bytes := [112, 107, 101, 121] },
          [112, 107, 101, 122]) ∧
    spkiDERFromPEM runTrailingBlock [112, 107, 101, 121, 10, 112, 107, 101, 122]
      = .ok ([112, 107, 101, 121], (show List Byte from [112, 107, 101, 121])) :=
  ⟨by decide, rfl⟩

/-- C12, amended: `spkiDERFromPEM` reads the first well-formed block only and
ignores what follows it: two inputs whose first block is the same give the same
result, whatever their remainders. -/
theorem spkiDERFromPEM_ignores_rest (E : Env) (pem1 pem2 : List Byte) (block : Block)
    (rest1 rest2 : List Byte)
    (h1 : E.pemDecode pem1 = some (block, rest1))
    (h2 : E.pemDecode pem2 = some (block, rest2)) :
    spkiDERFromPEM E pem1 = spkiDERFromPEM E pem2 := by
  simp only [spkiDERFromPEM, h1, h2]

/-- C12, amended, at concrete inputs: the line `pkey` alone and the line `pkey`
followed by the line `pkez` normalize alike. -/
theorem spkiDERFromPEM_ignores_rest_witness :
    spkiDERFromPEM runTrailingBlock [112, 107, 101, 121]
      = spkiDERFromPEM runTrailingBlock [112, 107, 101, 121, 10, 112, 107, 101, 122] :=
  spkiDERFromPEM_ignores_rest runTrailingBlock [112, 107, 101, 121]
    [112, 107, 101, 121, 10, 112, 107, 101, 122]
    { type := "PUBLIC KEY", headers := [], bytes := [112, 107, 101, 121] }
    [] [112, 107, 101, 122] (by decide) (by decide)

/-- C13 as stated fails: in key mode an engine error `no matching signatures` is
reported as `verify: no matching signatures`, not verbatim. -/
theorem sigverifyWithKey_prefixed_engine_error_counterexample :
    spkiDERFromPEM runEngineRejects (stringToBytes (Value.string "pkey").String)
      = .ok ([112, 107, 101, 121], (show List Byte from [112, 107, 101, 121])) ∧
    newVerifier runEngineRejects false
      = .ok (show List VerifierOption from
          [VerifierOption.withTransparencyLog 1, VerifierOption.withIntegratedTimestamps 1]) ∧
    decodeBundle runEngineRejects [2] = .ok (show List Byte from [2]) ∧
    runEngineRejects.verify
        (show List VerifierOption from
          [VerifierOption.withTransparencyLog 1, VerifierOption.withIntegratedTimestamps 1])
        (show List Byte from [2])
        (NewPolicy (ArtifactPolicyOption.withArtifact [1]) PolicyOption.withKey)
      = .error "no matching signatures" ∧
    sigverifyWithKey runEngineRejects
        [Value.uint8Array [1], Value.string "pkey", Value.uint8Array [2]]
      = some [("ok", Any.bool false), ("error", Any.string "verify: no matching signatures")] ∧
    sigverifyWithKey runEngineRejects
        [Value.uint8Array [1], Value.string "pkey", Value.uint8Array [2]]
      ≠ some [("ok", Any.bool false), ("error", Any.string "no matching signatures")] :=
  ⟨rfl, rfl, rfl, rfl, by decide, by decide⟩

/-- C13, amended: when all steps before the engine succeed and the engine's
`Verify` returns an error with message `e`, `sigverifyWithID` returns
`{ok:false, error: e}` with the message verbatim, and `sigverifyWithKey` returns
`{ok:false, error: "verify: " + e}`. -/
theorem engine_error_reported (E : Env) (artifact bundleBytes : List Byte) (e : String) :
    (∀ (a1 a2 : Value) (verifier : E.Verifier) (entity : E.Bundle)
        (cid : E.CertificateIdentity),
      a1.String ≠ "" → a2.String ≠ "" →
      newVerifier E true = .ok verifier →
      decodeBundle E bundleBytes = .ok entity →
      E.newShortCertificateIdentity a1.String "" a2.String "" = .ok cid →
      E.verify verifier entity
        (NewPolicy (ArtifactPolicyOption.withArtifact artifact)
          (PolicyOption.withCertificateIdentity cid)) = .error e →
      sigverifyWithID E [Value.uint8Array artifact, a1, a2, Value.uint8Array bundleBytes]
        = some (okFalse e)) ∧
    (∀ (a1 : Value) (wantDER : List Byte) (key : E.PublicKey) (verifier : E.Verifier)
        (entity : E.Bundle),
      spkiDERFromPEM E (stringToBytes a1.String) = .ok (wantDER, key) →
      newVerifier E false = .ok verifier →
      decodeBundle E bundleBytes = .ok entity →
      E.verify verifier entity
        (NewPolicy (ArtifactPolicyOption.withArtifact artifact) PolicyOption.withKey)
        = .error e →
      sigverifyWithKey E [Value.uint8Array artifact, a1, Value.uint8Array bundleBytes]
        = some (okFalse ("verify: " ++ e))) := by
  constructor
  · intro a1 a2 verifier entity cid hi hs hv he hc hr
    simp only [sigverifyWithID, CopyBytesToGo, Arg.String, hi, hs, or_self, if_false, hv, he, hc, hr]
  · intro a1 wantDER key verifier entity hk hv he hr
    simp only [sigverifyWithKey, CopyBytesToGo, Arg.String, hk, hv, he, hr]

/-- C13, amended, at concrete runs where the engine rejects with
`no matching signatures`. -/
theorem engine_error_reported_witness :
    sigverifyWithID runEngineRejects
        [Value.uint8Array [1], Value.string "https://issuer.example",
         Value.string "dev@example.com", Value.uint8Array [2]]
      = some (okFalse "no matching signatures") ∧
    sigverifyWithKey runEngineRejects
        [Value.uint8Array [1], Value.string "pkey", Value.uint8Array [2]]
      = some (okFalse ("verify: " ++ "no matching signatures")) :=
  ⟨(engine_error_reported runEngineRejects [1] [2] "no matching signatures").1
      (Value.string "https://issuer.example") (Value.string "dev@example.com")
      (show List VerifierOption from
        [VerifierOption.withSignedCertificateTimestamps 1,
         VerifierOption.withTransparencyLog 1, VerifierOption.withIntegratedTimestamps 1])
      (show List Byte from [2])
      (show String × String × String × String from
        ("https://issuer.example", "", "dev@example.com", ""))
      (by decide) (by decide) rfl rfl rfl rfl,
   (engine_error_reported runEngineRejects [1] [2] "no matching signatures").2
      (Value.string "pkey") [112, 107, 101, 121] (show List Byte from [112, 107, 101, 121])
      (show List VerifierOption from
        [VerifierOption.withTransparencyLog 1, VerifierOption.withIntegratedTimestamps 1])
      (show List Byte from [2]) rfl rfl rfl rfl⟩

/-- C14: in a call of correct arity whose bundle bytes fail to decode with error
`e` while the verifier is built (identity mode with non-empty issuer and
subject, key mode with a key that normalizes), the result is
`{ok:false, error:"bundle decode: " + e}`, and it stays so when the engine is
replaced by any other: `Verify` is not consulted. -/
theorem bundle_decode_failure (E : Env) (artifact bundleBytes : List Byte) (e : String)
    (he : decodeBundle E bundleBytes = .error e) :
    (∀ (a1 a2 : Value) (verifier : E.Verifier)
        (verify2 : E.Verifier → E.Bundle → PolicyBuilder E.CertificateIdentity →
          Except String E.VerificationResult),
      a1.String ≠ "" → a2.String ≠ "" →
      newVerifier E true = .ok verifier →
      sigverifyWithID { E with verify := verify2 }
          [Value.uint8Array artifact, a1, a2, Value.uint8Array bundleBytes]
        = some (okFalse ("bundle decode: " ++ e))) ∧
    (∀ (a1 : Value) (wantDER : List Byte) (key : E.PublicKey) (verifier : E.Verifier)
        (verify2 : E.Verifier → E.Bundle → PolicyBuilder E.CertificateIdentity →
          Except String E.VerificationResult),
      spkiDERFromPEM E (stringToBytes a1.String) = .ok (wantDER, key) →
      newVerifier E false = .ok verifier →
      sigverifyWithKey { E with verify := verify2 }
          [Value.uint8Array artifact, a1, Value.uint8Array bundleBytes]
        = some (okFalse ("bundle decode: " ++ e))) := by
  constructor
  · intro a1 a2 verifier verify2 hi hs hv
    have hv2 := newVerifier_with_verify E verify2 true
    have he2 := decodeBundle_with_verify E verify2 bundleBytes
    rw [hv] at hv2
    rw [he] at he2
    simp only [sigverifyWithID, CopyBytesToGo, Arg.String, hi, hs, or_self, if_false, hv2, he2]
  · intro a1 wantDER key verifier verify2 hk hv
    have hk2 := spkiDERFromPEM_with_verify E verify2 (stringToBytes a1.String)
    have hv2 := newVerifier_with_verify E verify2 false
    have he2 := decodeBundle_with_verify E verify2 bundleBytes
    rw [hk] at hk2
    rw [hv] at hv2
    rw [he] at he2
    simp only [sigverifyWithKey, CopyBytesToGo, Arg.String, hk2, hv2, he2]

/-- C14, at concrete calls: the empty bundle does not decode, and the result is
the decode failure under an engine that would accept everything. -/
theorem bundle_decode_failure_witness :
    sigverifyWithID { runEngineRejects with verify := fun _ _ _ => .ok () }
        [Value.uint8Array [1], Value.string "https://issuer.example",
         Value.string "dev@example.com", Value.uint8Array []]
      = some (okFalse ("bundle decode: " ++ "unexpected end of JSON input")) ∧
    sigverifyWithKey { runEngineRejects with verify := fun _ _ _ => .ok () }
        [Value.uint8Array [1], Value.string "pkey", Value.uint8Array []]
      = some (okFalse ("bundle decode: " ++ "unexpected end of JSON input")) :=
  ⟨(bundle_decode_failure runEngineRejects [1] [] "unexpected end of JSON input" rfl).1
      (Value.string "https://issuer.example") (Value.string "dev@example.com")
      (show List VerifierOption from
        [VerifierOption.withSignedCertificateTimestamps 1,
         VerifierOption.withTransparencyLog 1, VerifierOption.withIntegratedTimestamps 1])
      (fun _ _ _ => .ok ()) (by decide) (by decide) rfl,
   (bundle_decode_failure runEngineRejects [1] [] "unexpected end of JSON input" rfl).2
      (Value.string "pkey") [112, 107, 101, 121] (show List Byte from [112, 107, 101, 121])
      (show List VerifierOption from
        [VerifierOption.withTransparencyLog 1, VerifierOption.withIntegratedTimestamps 1])
      (fun _ _ _ => .ok ()) rfl rfl⟩

/-- C15: in a 3-argument call where `spkiDERFromPEM` fails on the caller's PEM
with error `e`, the result is `{ok:false, error:"public key: " + e}` whatever
the artifact, the bundle bytes, the trusted root, the verifier construction,
the bundle decoders and the engine are. -/
theorem sigverifyWithKey_bad_key (E : Env) (a1 : Value) (e : String)
    (h : spkiDERFromPEM E (stringToBytes a1.String) = .error e)
    (artifact bundleBytes rootJSON : List Byte)
    (newRoot : List Byte → Except String E.TrustedRoot)
    (newV : E.TrustedRoot → List VerifierOption → Except String E.Verifier)
    (dec : List Byte → Except String E.Bundle)
    (raw : List Byte → rawBundle)
    (verify2 : E.Verifier → E.Bundle → PolicyBuilder E.CertificateIdentity →
      Except String E.VerificationResult) :
    sigverifyWithKey
        { E with
          trustedRootJSON := rootJSON, newTrustedRootFromJSON := newRoot,
          verifyNewVerifier := newV, jsonUnmarshalBundle := dec,
          jsonUnmarshalRawBundle := raw, verify := verify2 }
        [Value.uint8Array artifact, a1, Value.uint8Array bundleBytes]
      = some (okFalse ("public key: " ++ e)) := by
  have hk2 := spkiDERFromPEM_with_later_steps E rootJSON newRoot newV dec raw verify2
    (stringToBytes a1.String)
  rw [h] at hk2
  simp only [sigverifyWithKey, CopyBytesToGo, Arg.String, hk2]

/-- C15, at a concrete call: the text `xkey` is no key, and the failure is
reported although the bundle embeds a key and the engine accepts. -/
theorem sigverifyWithKey_bad_key_witness :
    sigverifyWithKey runEmbedded
        [Value.uint8Array [1], Value.string "xkey", Value.uint8Array [2]]
      = some (okFalse ("public key: " ++ "unsupported PEM type")) :=
  sigverifyWithKey_bad_key runEmbedded (Value.string "xkey") "unsupported PEM type" rfl
    [1] [2] runEmbedded.trustedRootJSON runEmbedded.newTrustedRootFromJSON
    runEmbedded.verifyNewVerifier runEmbedded.jsonUnmarshalBundle
    runEmbedded.jsonUnmarshalRawBundle runEmbedded.verify

/-- C16 as stated fails: when the trusted root cannot be loaded and the bundle
does not decode either, both entry points report the verifier-construction
failure, not the bundle-decode failure. -/
theorem verifier_before_decode_counterexample :
    decodeBundle runBrokenRoot [] = .error "unexpected end of JSON input" ∧
    newVerifier runBrokenRoot true = .error "failed to unmarshal trusted root" ∧
    newVerifier runBrokenRoot false = .error "failed to unmarshal trusted root" ∧
    sigverifyWithID runBrokenRoot
        [Value.uint8Array [1], Value.string "https://issuer.example",
         Value.string "dev@example.com", Value.uint8Array []]
      = some [("ok", Any.bool false),
          ("error", Any.string "new verifier: failed to unmarshal trusted root")] ∧
    sigverifyWithID runBrokenRoot
        [Value.uint8Array [1], Value.string "https://issuer.example",
         Value.string "dev@example.com", Value.uint8Array []]
      ≠ some [("ok", Any.bool false),
          ("error", Any.string "bundle decode: unexpected end of JSON input")] ∧
    sigverifyWithKey runBrokenRoot
        [Value.uint8Array [1], Value.string "pkey", Value.uint8Array []]
      = some [("ok", Any.bool false),
          ("error", Any.string "new verifier: failed to unmarshal trusted root")] ∧
    sigverifyWithKey runBrokenRoot
        [Value.uint8Array [1], Value.string "pkey", Value.uint8Array []]
      ≠ some [("ok", Any.bool false),
          ("error", Any.string "bundle decode: unexpected end of JSON input")] :=
  ⟨rfl, rfl, rfl, by decide, by decide, by decide, by decide⟩

/-- C16, amended: the failure reported is that of the earliest failing step in
the order of the code. Identity mode: verifier construction, bundle decode,
identity construction, engine. Key mode: key normalization, verifier
construction, bundle decode, engine, key pinning. A step is reached only when
all steps before it succeeded, and its failure is reported whatever the later
steps would do. -/
theorem failure_of_earliest_step (E : Env) (artifact bundleBytes : List Byte) :
    (∀ a1 a2 : Value, a1.String ≠ "" → a2.String ≠ "" →
      (∀ e, newVerifier E true = .error e →
        sigverifyWithID E [Value.uint8Array artifact, a1, a2, Value.uint8Array bundleBytes]
          = some (okFalse ("new verifier: " ++ e))) ∧
      (∀ verifier e, newVerifier E true = .ok verifier →
        decodeBundle E bundleBytes = .error e →
        sigverifyWithID E [Value.uint8Array artifact, a1, a2, Value.uint8Array bundleBytes]
          = some (okFalse ("bundle decode: " ++ e))) ∧
      (∀ verifier entity e, newVerifier E true = .ok verifier →
        decodeBundle E bundleBytes = .ok entity →
        E.newShortCertificateIdentity a1.String "" a2.String "" = .error e →
        sigverifyWithID E [Value.uint8Array artifact, a1, a2, Value.uint8Array bundleBytes]
          = some (okFalse ("identity: " ++ e))) ∧
      (∀ verifier entity cid e, newVerifier E true = .ok verifier →
        decodeBundle E bundleBytes = .ok entity →
        E.newShortCertificateIdentity a1.String "" a2.String "" = .ok cid →
        E.verify verifier entity
          (NewPolicy (ArtifactPolicyOption.withArtifact artifact)
            (PolicyOption.withCertificateIdentity cid)) = .error e →
        sigverifyWithID E [Value.uint8Array artifact, a1, a2, Value.uint8Array bundleBytes]
          = some (okFalse e))) ∧
    (∀ a1 : Value,
      (∀ e, spkiDERFromPEM E (stringToBytes a1.String) = .error e →
        sigverifyWithKey E [Value.uint8Array artifact, a1, Value.uint8Array bundleBytes]
          = some (okFalse ("public key: " ++ e))) ∧
      (∀ wantDER key e, spkiDERFromPEM E (stringToBytes a1.String) = .ok (wantDER, key) →
        newVerifier E false = .error e →
        sigverifyWithKey E [Value.uint8Array artifact, a1, Value.uint8Array bundleBytes]
          = some (okFalse ("new verifier: " ++ e))) ∧
      (∀ wantDER key verifier e,
        spkiDERFromPEM E (stringToBytes a1.String) = .ok (wantDER, key) →
        newVerifier E false = .ok verifier →
        decodeBundle E bundleBytes = .error e →
        sigverifyWithKey E [Value.uint8Array artifact, a1, Value.uint8Array bundleBytes]
          = some (okFalse ("bundle decode: " ++ e))) ∧
      (∀ wantDER key verifier entity e,
        spkiDERFromPEM E (stringToBytes a1.String) = .ok (wantDER, key) →
        newVerifier E false = .ok verifier →
        decodeBundle E bundleBytes = .ok entity →
        E.verify verifier entity
          (NewPolicy (ArtifactPolicyOption.withArtifact artifact) PolicyOption.withKey)
          = .error e →
        sigverifyWithKey E [Value.uint8Array artifact, a1, Value.uint8Array bundleBytes]
          = some (okFalse ("verify: " ++ e))) ∧
      (∀ wantDER, EngineAccepts E artifact a1 bundleBytes wantDER →
        sigverifyWithKey E [Value.uint8Array artifact, a1, Value.uint8Array bundleBytes]
            = some okTrue ∨
        (∃ e, sigverifyWithKey E
            [Value.uint8Array artifact, a1, Value.uint8Array bundleBytes]
            = some (okFalse ("bundle publicKey decode: " ++ e))) ∨
        sigverifyWithKey E [Value.uint8Array artifact, a1, Value.uint8Array bundleBytes]
            = some (okFalse "public key mismatch: bundle key != expected key") ∨
        sigverifyWithKey E [Value.uint8Array artifact, a1, Value.uint8Array bundleBytes]
            = some (okFalse "key hint mismatch") ∨
        sigverifyWithKey E [Value.uint8Array artifact, a1, Value.uint8Array bundleBytes]
            = some (okFalse "bundle has no public key material to pin"))) := by
  constructor
  · intro a1 a2 hi hs
    refine ⟨?_, ?_, ?_, ?_⟩
    · intro e hv
      simp only [sigverifyWithID, CopyBytesToGo, Arg.String, hi, hs, or_self, if_false, hv]
    · intro verifier e hv he
      simp only [sigverifyWithID, CopyBytesToGo, Arg.String, hi, hs, or_self, if_false, hv, he]
    · intro verifier entity e hv he hc
      simp only [sigverifyWithID, CopyBytesToGo, Arg.String, hi, hs, or_self, if_false, hv, he, hc]
    · intro verifier entity cid e hv he hc hr
      simp only [sigverifyWithID, CopyBytesToGo, Arg.String, hi, hs, or_self, if_false, hv, he, hc, hr]
  · intro a1
    refine ⟨?_, ?_, ?_, ?_, ?_⟩
    · intro e hk
      simp only [sigverifyWithKey, CopyBytesToGo, Arg.String, hk]
    · intro wantDER key e hk hv
      simp only [sigverifyWithKey, CopyBytesToGo, Arg.String, hk, hv]
    · intro wantDER key verifier e hk hv he
      simp only [sigverifyWithKey, CopyBytesToGo, Arg.String, hk, hv, he]
    · intro wantDER key verifier entity e hk hv he hr
      simp only [sigverifyWithKey, CopyBytesToGo, Arg.String, hk, hv, he, hr]
    · intro wantDER hacc
      rw [sigverifyWithKey_of_accepts E artifact a1 bundleBytes wantDER hacc]
      split
      · split
        · exact Or.inr (Or.inl ⟨_, rfl⟩)
        · split
          · exact Or.inr (Or.inr (Or.inl rfl))
          · exact Or.inl rfl
      · split
        · split
          · exact Or.inr (Or.inr (Or.inr (Or.inl rfl)))
          · exact Or.inl rfl
        · exact Or.inr (Or.inr (Or.inr (Or.inr rfl)))

/-- C16, amended, at concrete calls: with a broken trusted root and an
undecodable bundle the verifier failure is reported; with a working root the
decode failure is. -/
theorem failure_of_earliest_step_witness :
    sigverifyWithID runBrokenRoot
        [Value.uint8Array [1], Value.string "https://issuer.example",
         Value.string "dev@example.com", Value.uint8Array []]
      = some (okFalse ("new verifier: " ++ "failed to unmarshal trusted root")) ∧
    sigverifyWithKey runEmbedded
        [Value.uint8Array [1], Value.string "pkey", Value.uint8Array []]
      = some (okFalse ("bundle decode: " ++ "unexpected end of JSON input")) :=
  ⟨((failure_of_earliest_step runBrokenRoot [1] []).1
      (Value.string "https://issuer.example") (Value.string "dev@example.com")
      (by decide) (by decide)).1 "failed to unmarshal trusted root" rfl,
   ((failure_of_earliest_step runEmbedded [1] []).2 (Value.string "pkey")).2.2.1
      [112, 107, 101, 121] (show List Byte from [112, 107, 101, 121])
      (show List VerifierOption from
        [VerifierOption.withTransparencyLog 1, VerifierOption.withIntegratedTimestamps 1])
      "unexpected end of JSON input" rfl rfl rfl⟩

/-- C17: the options `newVerifier false` hands to the engine. They hold no
signed-certificate-timestamp requirement, but they do hold an
integrated-timestamp requirement with threshold 1, against the remark in
`sigverifyWithKey` that key-signed bundles need neither. -/
theorem newVerifier_nonstrict_requires_integrated_timestamps (E : Env) :
    ∃ opts : List VerifierOption,
      (newVerifier E false =
        match E.newTrustedRootFromJSON E.trustedRootJSON with
        | .error err => .error err
        | .ok trustedRoot => E.verifyNewVerifier trustedRoot opts) ∧
      VerifierOption.withIntegratedTimestamps 1 ∈ opts ∧
      (∀ n, VerifierOption.withSignedCertificateTimestamps n ∉ opts) ∧
      newVerifier runEmbedded false = .ok opts := by
  refine ⟨[VerifierOption.withTransparencyLog 1, VerifierOption.withIntegratedTimestamps 1],
    ?_, by decide, ?_, rfl⟩
  · simp only [newVerifier, Bool.not_false, if_true]
  · intro n
    simp

/-- C18: in the hint branch the call succeeds exactly when
`ToLower(TrimSpace(h))` equals the lower-case hex SHA-256 of `wantDER`, and
fails with `key hint mismatch` otherwise; so two accepted hint-only bundles
whose hints agree after trimming and lower-casing give the same result. -/
theorem hint_comparison (E : Env) (artifact : List Byte) (a1 : Value) (wantDER : List Byte) :
    (∀ (bundleBytes : List Byte) (pkid : publicKeyIdentifier),
      EngineAccepts E artifact a1 bundleBytes wantDER →
      NoEmbeddedKey (E.jsonUnmarshalRawBundle bundleBytes) →
      (E.jsonUnmarshalRawBundle bundleBytes).VerificationMaterial.Content.PublicKeyIdentifier
        = some pkid →
      sigverifyWithKey E [Value.uint8Array artifact, a1, Value.uint8Array bundleBytes] =
        if ToLower E.unicodeToLower (TrimSpace pkid.Hint)
            = EncodeToString (E.sum256 wantDER).val then some okTrue
        else some (okFalse "key hint mismatch")) ∧
    (∀ (bundle1 bundle2 : List Byte) (pkid1 pkid2 : publicKeyIdentifier),
      EngineAccepts E artifact a1 bundle1 wantDER →
      EngineAccepts E artifact a1 bundle2 wantDER →
      NoEmbeddedKey (E.jsonUnmarshalRawBundle bundle1) →
      NoEmbeddedKey (E.jsonUnmarshalRawBundle bundle2) →
      (E.jsonUnmarshalRawBundle bundle1).VerificationMaterial.Content.PublicKeyIdentifier
        = some pkid1 →
      (E.jsonUnmarshalRawBundle bundle2).VerificationMaterial.Content.PublicKeyIdentifier
        = some pkid2 →
      ToLower E.unicodeToLower (TrimSpace pkid1.Hint)
        = ToLower E.unicodeToLower (TrimSpace pkid2.Hint) →
      sigverifyWithKey E [Value.uint8Array artifact, a1, Value.uint8Array bundle1] =
        sigverifyWithKey E [Value.uint8Array artifact, a1, Value.uint8Array bundle2]) := by
  constructor
  · intro bundleBytes pkid hacc hno hid
    exact sigverifyWithKey_hint_branch E artifact a1 bundleBytes wantDER pkid hacc hno hid
  · intro bundle1 bundle2 pkid1 pkid2 hacc1 hacc2 hno1 hno2 hid1 hid2 heq
    rw [sigverifyWithKey_hint_branch E artifact a1 bundle1 wantDER pkid1 hacc1 hno1 hid1,
      sigverifyWithKey_hint_branch E artifact a1 bundle2 wantDER pkid2 hacc2 hno2 hid2, heq]

/-- C18, at a concrete run: the upper-case fingerprint between spaces (bundle
`[2]`) and the plain lower-case fingerprint (bundle `[3]`) give the same result. -/
theorem hint_comparison_witness :
    sigverifyWithKey runUpperHint
        [Value.uint8Array [1], Value.string "pkey", Value.uint8Array [2]] =
      sigverifyWithKey runUpperHint
        [Value.uint8Array [1], Value.string "pkey", Value.uint8Array [3]] :=
  (hint_comparison runUpperHint [1] (Value.string "pkey") [112, 107, 101, 121]).2 [2] [3]
    { Hint := "  5454ED612EB5964E86E93EDA6C1F5039BDAAE7E04E2B935EF0D1C45910AB3E1A " }
    { Hint := "5454ed612eb5964e86e93eda6c1f5039bdaae7e04e2b935ef0d1c45910ab3e1a" }
    ⟨(show List Byte from [112, 107, 101, 121]),
     (show List VerifierOption from
       [VerifierOption.withTransparencyLog 1, VerifierOption.withIntegratedTimestamps 1]),
     (show List Byte from [2]), (), rfl, rfl, rfl, rfl⟩
    ⟨(show List Byte from [112, 107, 101, 121]),
     (show List VerifierOption from
       [VerifierOption.withTransparencyLog 1, VerifierOption.withIntegratedTimestamps 1]),
     (show List Byte from [3]), (), rfl, rfl, rfl, rfl⟩
    (Or.inl rfl) (Or.inl rfl) rfl rfl (by decide)

/-- C19: when the bundle carries a non-empty embedded key content, that key
alone decides the pin, whatever `publicKeyIdentifier` is: the accepted call
returns `{ok:true}` exactly when the content decodes to `wantDER`, and a
differing key is rejected even if the hint is the right fingerprint. A
`publicKey` object with empty content is treated as absent: the hint decides
if there is one, and otherwise there is nothing to pin. -/
theorem embedded_key_precedes_hint (E : Env) (artifact : List Byte) (a1 : Value)
    (bundleBytes wantDER : List Byte) (pk : publicKeyContent)
    (hacc : EngineAccepts E artifact a1 bundleBytes wantDER)
    (hP : (E.jsonUnmarshalRawBundle bundleBytes).VerificationMaterial.Content.PublicKey
      = some pk) :
    (pk.Content ≠ "" →
      (sigverifyWithKey E [Value.uint8Array artifact, a1, Value.uint8Array bundleBytes]
          = some okTrue ↔ E.base64DecodeString pk.Content = .ok wantDER) ∧
      (∀ pkid gotDER,
        (E.jsonUnmarshalRawBundle bundleBytes).VerificationMaterial.Content.PublicKeyIdentifier
          = some pkid →
        ToLower E.unicodeToLower (TrimSpace pkid.Hint)
          = EncodeToString (E.sum256 wantDER).val →
        E.base64DecodeString pk.Content = .ok gotDER → gotDER ≠ wantDER →
        sigverifyWithKey E [Value.uint8Array artifact, a1, Value.uint8Array bundleBytes]
          = some (okFalse "public key mismatch: bundle key != expected key"))) ∧
    (pk.Content = "" →
      (∀ pkid,
        (E.jsonUnmarshalRawBundle bundleBytes).VerificationMaterial.Content.PublicKeyIdentifier
          = some pkid →
        (sigverifyWithKey E [Value.uint8Array artifact, a1, Value.uint8Array bundleBytes]
            = some okTrue ↔
          ToLower E.unicodeToLower (TrimSpace pkid.Hint)
            = EncodeToString (E.sum256 wantDER).val)) ∧
      ((E.jsonUnmarshalRawBundle bundleBytes).VerificationMaterial.Content.PublicKeyIdentifier
          = none →
        sigverifyWithKey E [Value.uint8Array artifact, a1, Value.uint8Array bundleBytes]
          = some (okFalse "bundle has no public key material to pin"))) := by
  constructor
  · intro hc
    have hres : sigverifyWithKey E
        [Value.uint8Array artifact, a1, Value.uint8Array bundleBytes] =
        match E.base64DecodeString pk.Content with
        | .error err => some (okFalse ("bundle publicKey decode: " ++ err))
        | .ok gotDER =>
          if ¬ gotDER = wantDER then
            some (okFalse "public key mismatch: bundle key != expected key")
          else some okTrue := by
      rw [sigverifyWithKey_of_accepts E artifact a1 bundleBytes wantDER hacc,
        filter_embedded _ pk hP hc]
    constructor
    · rw [hres]
      cases hg : E.base64DecodeString pk.Content with
      | error err => simp [okFalse, okTrue]
      | ok gotDER =>
        by_cases heq : gotDER = wantDER
        · simp [heq]
        · simp [heq, okFalse, okTrue]
    · intro pkid gotDER _ _ hg hne
      rw [hres]
      simp only [hg, if_pos hne]
  · intro hc
    have hno : NoEmbeddedKey (E.jsonUnmarshalRawBundle bundleBytes) := Or.inr ⟨pk, hP, hc⟩
    constructor
    · intro pkid hid
      rw [sigverifyWithKey_hint_branch E artifact a1 bundleBytes wantDER pkid hacc hno hid]
      by_cases heq : ToLower E.unicodeToLower (TrimSpace pkid.Hint)
          = EncodeToString (E.sum256 wantDER).val
      · simp [heq]
      · simp [heq, okFalse, okTrue]
    · intro hid
      rw [sigverifyWithKey_of_accepts E artifact a1 bundleBytes wantDER hacc,
        filter_no_embedded _ hno]
      simp only [hid]

/-- C19, at a concrete run: the bundle embeds `pkez` and carries the right
fingerprint of the caller's key `pkey` as hint; it is rejected. -/
theorem embedded_key_precedes_hint_witness :
    sigverifyWithKey runKeyAndHint
        [Value.uint8Array [1], Value.string "pkey", Value.uint8Array [2]]
      = some (okFalse "public key mismatch: bundle key != expected key") :=
  ((embedded_key_precedes_hint runKeyAndHint [1] (Value.string "pkey") [2]
      [112, 107, 101, 121] { Content := "cGtleg==" }
      ⟨(show List Byte from [112, 107, 101, 121]),
       (show List VerifierOption from
         [VerifierOption.withTransparencyLog 1, VerifierOption.withIntegratedTimestamps 1]),
       (show List Byte from [2]), (), rfl, rfl, rfl, rfl⟩
      rfl).1 (by decide)).2
    { Hint := "5454ed612eb5964e86e93eda6c1f5039bdaae7e04e2b935ef0d1c45910ab3e1a" }
    [112, 107, 101, 122] rfl (by decide) rfl (by decide)

/-- C20: the fingerprint computed in the hint branch has exactly 64 characters,
each one of `0-9a-f`, and lower-casing leaves it unchanged; hence, when the hint
branch is taken, a hint that is empty or made of white space only, or whose
trimmed form does not have 64 characters (or, the case tables mapping no
non-ASCII rune to a hex digit, 64 bytes), gives
`{ok:false, error:"key hint mismatch"}`. -/
theorem blank_or_short_hint (E : Env) (artifact : List Byte) (a1 : Value)
    (bundleBytes wantDER : List Byte) (pkid : publicKeyIdentifier) :
    ((EncodeToString (E.sum256 wantDER).val).length = 64 ∧
      (∀ c ∈ (EncodeToString (E.sum256 wantDER).val).data, c ∈ hextable) ∧
      ToLower E.unicodeToLower (EncodeToString (E.sum256 wantDER).val)
        = EncodeToString (E.sum256 wantDER).val) ∧
    (EngineAccepts E artifact a1 bundleBytes wantDER →
      NoEmbeddedKey (E.jsonUnmarshalRawBundle bundleBytes) →
      (E.jsonUnmarshalRawBundle bundleBytes).VerificationMaterial.Content.PublicKeyIdentifier
        = some pkid →
      ((∀ c ∈ pkid.Hint.data, isSpace c = true) ∨
        (TrimSpace pkid.Hint).length ≠ 64 ∨
        ((∀ c : Char, 0x7F < c.toNat → E.unicodeToLower c ∉ hextable) ∧
          (stringToBytes (TrimSpace pkid.Hint)).length ≠ 64)) →
      sigverifyWithKey E [Value.uint8Array artifact, a1, Value.uint8Array bundleBytes]
        = some (okFalse "key hint mismatch")) := by
  have hfp : (EncodeToString (E.sum256 wantDER).val).length = 64 := by
    rw [EncodeToString_length, (E.sum256 wantDER).property]
  refine ⟨⟨hfp, EncodeToString_hex _, ToLower_EncodeToString _ _⟩, ?_⟩
  intro hacc hno hid hcase
  rw [sigverifyWithKey_hint_branch E artifact a1 bundleBytes wantDER pkid hacc hno hid, if_neg]
  intro heq
  have hlen : (TrimSpace pkid.Hint).length = 64 := by
    rw [← ToLower_length E.unicodeToLower, heq, hfp]
  rcases hcase with hblank | hshort | ⟨htable, hbytes⟩
  · rw [TrimSpace_blank _ hblank] at hlen
    exact absurd hlen (by decide)
  · exact hshort hlen
  · apply hbytes
    have hascii : ∀ c ∈ (TrimSpace pkid.Hint).data, c.toNat ≤ 0x7F := by
      intro c hc
      by_contra hna
      have hna2 : 0x7F < c.toNat := by omega
      have hmem : toLowerRune E.unicodeToLower c ∈
          (ToLower E.unicodeToLower (TrimSpace pkid.Hint)).data :=
        List.mem_map_of_mem _ hc
      rw [heq] at hmem
      have hhex := EncodeToString_hex _ _ hmem
      simp only [toLowerRune, hna, if_false] at hhex
      exact htable c hna2 hhex
    show ((TrimSpace pkid.Hint).data.foldr (fun c acc => utf8EncodeRune c ++ acc) []).length
      = 64
    rw [stringToBytes_length_ascii _ hascii]
    exact hlen

/-- C20, at a concrete run: a hint of three spaces is rejected. -/
theorem blank_or_short_hint_witness :
    sigverifyWithKey runBlankHint
        [Value.uint8Array [1], Value.string "pkey", Value.uint8Array [2]]
      = some (okFalse "key hint mismatch") :=
  (blank_or_short_hint runBlankHint [1] (Value.string "pkey") [2] [112, 107, 101, 121]
      { Hint := "   " }).2
    ⟨(show List Byte from [112, 107, 101, 121]),
     (show List VerifierOption from
       [VerifierOption.withTransparencyLog 1, VerifierOption.withIntegratedTimestamps 1]),
     (show List Byte from [2]), (), rfl, rfl, rfl, rfl⟩
    (Or.inl rfl) rfl (Or.inl (by decide))

end Sigwasm
